import Mathlib

/-!
Verification of the travelAssistant repository's Tool-Orchestrating Reasoning Core.

This file is a shallow embedding, in Lean 4, of the JavaScript reasoning agent of
the repository (the `TravelReasoningAgent` class of `src/unnamed/part_005`, the
tool catalog of `src/src/agents/tools.js`, the query classifier of
`src/unnamed/part_006`, and the system prompts of `src/src/prompts/system.js`),
together with theorems settling the frozen claims about that code.

Modelling conventions:
* JavaScript strings are Lean `String`s; all string primitives used by the code
  (`toLowerCase`, `includes`, `trim`, `split`, `match`, `test`) are re-implemented
  below with JavaScript semantics on the character ranges the code manipulates.
* JavaScript regular expressions are embedded via a small backtracking matcher
  (`RE` / `reMatch`) that mirrors JS semantics: leftmost match, first-alternative
  preference, greedy/lazy quantifiers, word boundaries, `$`, negative lookahead,
  numbered capture groups.
* The LLM (`this.llm.invoke`) and the external data providers behind each tool's
  `func` are oracles: they are parameters of the embedded `processMessage`.  A
  thrown JS exception is an `Except.error`.
* Wall-clock fields (`duration`, `timestamp`) and console logging are not
  modelled; they carry no information used by any claim.
-/

namespace TravelAssistant

/-! ## JavaScript character and string primitives -/

/-- JS `String.prototype.toLowerCase` on one character, restricted to the
Basic-Latin and Latin-1 ranges actually manipulated by this program
(ASCII letters plus the Latin-1 uppercase block). -/
def jsToLowerChar (c : Char) : Char :=
  if c.isUpper then Char.ofNat (c.toNat + 32)
  else if 0xC0 ≤ c.toNat ∧ c.toNat ≤ 0xDE ∧ c.toNat ≠ 0xD7 then Char.ofNat (c.toNat + 32)
  else c

/-- JS `String.prototype.toUpperCase` on one character (same ranges). -/
def jsToUpperChar (c : Char) : Char :=
  if c.isLower then Char.ofNat (c.toNat - 32)
  else if 0xE0 ≤ c.toNat ∧ c.toNat ≤ 0xFE ∧ c.toNat ≠ 0xF7 then Char.ofNat (c.toNat - 32)
  else c

/-- JS `toLowerCase` on a string. -/
def jsToLower (s : String) : String := String.mk (s.data.map jsToLowerChar)

/-- JS whitespace class (`\s` and what `trim` strips): space, tab, LF, CR, FF, VT, NBSP. -/
def isSpaceJS (c : Char) : Bool :=
  c = ' ' || c = '\t' || c = '\n' || c = '\r' || c.toNat = 12 || c.toNat = 11 || c.toNat = 0xA0

/-- JS `String.prototype.trim`. -/
def trimJS (s : String) : String :=
  String.mk (((s.data.dropWhile isSpaceJS).reverse.dropWhile isSpaceJS).reverse)

/-- Does `needle` occur at the head of `hay`? -/
def leadsWith : List Char → List Char → Bool
  | [], _ => true
  | _ :: _, [] => false
  | a :: as, b :: bs => a = b && leadsWith as bs

/-- Does `needle` occur anywhere in `hay`? -/
def containsSeq (hay needle : List Char) : Bool :=
  match hay with
  | [] => needle.isEmpty
  | _ :: t => leadsWith needle hay || containsSeq t needle

/-- JS `String.prototype.includes`. -/
def strIncludes (s sub : String) : Bool := containsSeq s.data sub.data

/-- The source of `word.charAt(0).toUpperCase() + word.slice(1).toLowerCase()`,
the capitalization step shared by every location normalizer in the agent. -/
def capitalizeWordJS (w : String) : String :=
  match w.data with
  | [] => ""
  | c :: rest => String.mk (jsToUpperChar c :: rest.map jsToLowerChar)

mutual

/-- Helper for `splitWsJS`: accumulate the current piece, cutting at whitespace. -/
def splitWsGo : List Char → List Char → List String
  | [], cur => [String.mk cur.reverse]
  | c :: t, cur =>
    if isSpaceJS c then String.mk cur.reverse :: splitWsSkip t
    else splitWsGo t (c :: cur)

/-- Helper for `splitWsJS`: consume the rest of a whitespace run. -/
def splitWsSkip : List Char → List String
  | [] => [""]
  | c :: t => if isSpaceJS c then splitWsSkip t else splitWsGo t [c]

end

/-- JS `String.prototype.split(/\s+/)`: separators are maximal whitespace runs;
a leading or trailing run contributes an empty piece, exactly as in JS. -/
def splitWsJS (s : String) : List String := splitWsGo s.data []

/-- Helper for `splitOnChar`. -/
def splitOnCharGo (sep : Char) (l : List Char) (cur : List Char) : List String :=
  match l with
  | [] => [String.mk cur.reverse]
  | c :: t =>
    if c = sep then String.mk cur.reverse :: splitOnCharGo sep t []
    else splitOnCharGo sep t (c :: cur)

/-- JS `String.prototype.split(c)` for a one-character separator (used as `split(' ')`). -/
def splitOnChar (sep : Char) (s : String) : List String := splitOnCharGo sep s.data []

/-! ## A backtracking regular-expression matcher with JS semantics -/

/-- Embedded regular expressions.  `rep body lo hi lazy` is the quantifier
`body{lo,hi}` (`hi = none` meaning unbounded) with `lazy = true` for the `?`
(non-greedy) variants; `grp n` is the numbered capture group `(...)`;
`wordB` is `\b`; `eos` is `$`; `lookNeg` is the negative lookahead `(?!...)`. -/
inductive RE where
  | eps : RE
  | cls : (Char → Bool) → RE
  | seq : RE → RE → RE
  | alt : RE → RE → RE
  | rep : RE → Nat → Option Nat → Bool → RE
  | grp : Nat → RE → RE
  | wordB : RE
  | eos : RE
  | lookNeg : RE → RE

/-- Capture list: `(group, start, stop)` triples, most recent first. -/
abbrev Caps := List (Nat × Nat × Nat)

/-- Character at index `i`. -/
def charAt? (s : List Char) (i : Nat) : Option Char := (s.drop i).head?

/-- JS word character (`\w` = `[A-Za-z0-9_]`), used by `\b`. -/
def wordCharJS (c : Char) : Bool := c.isAlphanum || c = '_'

/-- Is there a JS word boundary at position `i` of `s`? -/
def wordBoundaryAt (s : List Char) (i : Nat) : Bool :=
  let l := match i with
    | 0 => false
    | j + 1 => match charAt? s j with
      | some c => wordCharJS c
      | none => false
  let r := match charAt? s i with
    | some c => wordCharJS c
    | none => false
  l != r

/-- Backtracking matcher in continuation-passing style, fuel-bounded.
`reMatch s fuel re i caps k` tries to match `re` in `s` starting at `i`; on
success of one branch it calls `k` with the new position and captures, and on
`k`'s failure it backtracks to the next branch, exactly reproducing the JS
engine's ordering (first alternative preferred, greedy quantifiers try the
longer iteration first, lazy ones the shorter).  An iteration of an unbounded
quantifier that consumes nothing is cut off, as in JS. -/
def reMatch (s : List Char) : Nat → RE → Nat → Caps →
    (Nat → Caps → Option (Nat × Caps)) → Option (Nat × Caps)
  | 0, _, _, _, _ => none
  | fuel + 1, re, i, caps, k =>
    match re with
    | .eps => k i caps
    | .cls p =>
      match charAt? s i with
      | some c => if p c then k (i + 1) caps else none
      | none => none
    | .seq a b => reMatch s fuel a i caps (fun j cs => reMatch s fuel b j cs k)
    | .alt a b =>
      (reMatch s fuel a i caps k).orElse (fun _ => reMatch s fuel b i caps k)
    | .grp n a => reMatch s fuel a i caps (fun j cs => k j ((n, i, j) :: cs))
    | .wordB => if wordBoundaryAt s i then k i caps else none
    | .eos => if i = s.length then k i caps else none
    | .lookNeg a =>
      match reMatch s fuel a i caps (fun j cs => some (j, cs)) with
      | some _ => none
      | none => k i caps
    | .rep a lo hi lz =>
      match lo with
      | m + 1 =>
        reMatch s fuel a i caps (fun j cs =>
          reMatch s fuel (.rep a m (hi.map (· - 1)) lz) j cs k)
      | 0 =>
        match hi with
        | some 0 => k i caps
        | _ =>
          let more := fun (_ : Unit) =>
            reMatch s fuel a i caps (fun j cs =>
              if j = i then none
              else reMatch s fuel (.rep a 0 (hi.map (· - 1)) lz) j cs k)
          if lz then (k i caps).orElse (fun _ => more ())
          else (more ()).orElse (fun _ => k i caps)

/-- Fuel bound for a search over `s`: far above the deepest call chain any of
the embedded patterns can produce on `s`. -/
def reFuel (s : List Char) : Nat := 1000 * (s.length + 2)

/-- Leftmost search, as in JS `String.prototype.match` without the `g` flag:
try each start position left to right and return the first success,
as `(start, stop, captures)`. -/
def reSearch (re : RE) (s : List Char) : Option (Nat × Nat × Caps) :=
  (List.range (s.length + 1)).findSome? fun i =>
    match reMatch s (reFuel s) re i [] (fun j cs => some (j, cs)) with
    | some (j, cs) => some (i, j, cs)
    | none => none

/-- JS `RegExp.prototype.test`. -/
def regexTest (re : RE) (s : String) : Bool := (reSearch re s.data).isSome

/-- JS test of a fully anchored `/^...$/` pattern. -/
def regexTestFull (re : RE) (s : String) : Bool :=
  (reMatch s.data (reFuel s.data) (RE.seq re RE.eos) 0 [] (fun j cs => some (j, cs))).isSome

/-- The substring of `s` between positions `a` and `b`. -/
def sliceStr (s : List Char) (a b : Nat) : String := String.mk ((s.drop a).take (b - a))

/-- Most recent recorded span of capture group `n`. -/
def capLookup (cs : Caps) (n : Nat) : Option (Nat × Nat) :=
  (cs.find? (fun x => x.1 = n)).map (fun x => x.2)

/-- `m[1]` of the leftmost JS match of `re` on `s`, or `none` when there is no
match.  Every pattern this file feeds to `matchG1` has a mandatory (non-optional)
group 1, so a match always carries the group and the two `none` cases of JS
(`no match` and `m[1] === undefined`) cannot be told apart by the callers, which
all guard with `m && m[1]`. -/
def matchG1 (re : RE) (s : String) : Option String :=
  match reSearch re s.data with
  | some (_, _, cs) =>
    match capLookup cs 1 with
    | some (a, b) => some (sliceStr s.data a b)
    | none => none
  | none => none

/-- `(m[1], m[2])` of the leftmost JS match, for the two-group patterns. -/
def matchG12 (re : RE) (s : String) : Option (String × String) :=
  match reSearch re s.data with
  | some (_, _, cs) =>
    match capLookup cs 1, capLookup cs 2 with
    | some (a, b), some (c, d) => some (sliceStr s.data a b, sliceStr s.data c d)
    | _, _ => none
  | none => none

/-! ### Pattern-building helpers -/

/-- Concatenation of a pattern list. -/
def rcat (l : List RE) : RE := l.foldr RE.seq RE.eps

/-- Never-matching pattern (empty alternation base). -/
def rfail : RE := RE.cls (fun _ => false)

/-- Ordered alternation of a pattern list (first alternative preferred, as in JS). -/
def ralt : List RE → RE
  | [] => rfail
  | [r] => r
  | r :: t => RE.alt r (ralt t)

/-- Literal character. -/
def rchr (c : Char) : RE := RE.cls (fun x => x = c)

/-- Literal character under the `i` flag. -/
def richr (c : Char) : RE := RE.cls (fun x => jsToLowerChar x = jsToLowerChar c)

/-- Literal string. -/
def rstr (w : String) : RE := rcat (w.data.map rchr)

/-- Literal string under the `i` flag. -/
def ristr (w : String) : RE := rcat (w.data.map richr)

/-- `\d`. -/
def rdigit : RE := RE.cls Char.isDigit

/-- `\s`. -/
def rws : RE := RE.cls isSpaceJS

/-- `[a-z]`. -/
def rlower : RE := RE.cls Char.isLower

/-- `[A-Z]`. -/
def rupper : RE := RE.cls Char.isUpper

/-- `[a-z]` (equivalently `[A-Z]`) under the `i` flag. -/
def rialpha : RE := RE.cls Char.isAlpha

/-- `[0-9A-Z]`. -/
def rdigUp : RE := RE.cls (fun c => c.isDigit || c.isUpper)

/-- `r+`. -/
def rplus (r : RE) : RE := RE.rep r 1 none false

/-- `r*`. -/
def rstar (r : RE) : RE := RE.rep r 0 none false

/-- `r?`. -/
def ropt (r : RE) : RE := RE.rep r 0 (some 1) false

/-- `r{n,}`. -/
def rmin (r : RE) (n : Nat) : RE := RE.rep r n none false

/-- `r{lo,hi}`. -/
def rbetween (r : RE) (lo hi : Nat) : RE := RE.rep r lo (some hi) false

/-- `r{lo,hi}?` (lazy). -/
def rbetweenLazy (r : RE) (lo hi : Nat) : RE := RE.rep r lo (some hi) true

/-- `\bw\b` for a literal word under the `i` flag — the shape of every
`excludeWords` regex and of the dynamically built
`new RegExp('\\b' + keyword + '\\b', 'i')` of the places trigger. -/
def wordAltTest (ws : List String) : RE :=
  rcat [RE.wordB, ralt (ws.map ristr), RE.wordB]

/-! ## The mojibake currency symbols

The repository file stores its currency symbols double-encoded: the shekel,
euro, pound and yen signs appear in the source as the character sequences
U+00E2 U+201A U+00AA, U+00E2 U+201A U+00AC, U+00C2 U+00A3 and U+00C2 U+00A5.
The embedding reproduces exactly those sequences, since that is what the
JavaScript engine sees. -/

/-- The shekel sign as stored in the source (three characters). -/
def mojiShekel : String := "â‚ª"

/-- The euro sign as stored in the source (three characters). -/
def mojiEuro : String := "â‚¬"

/-- The pound sign as stored in the source (two characters). -/
def mojiPound : String := "Â£"

/-- The yen sign as stored in the source (two characters). -/
def mojiYen : String := "Â¥"

/-! ## The regular expressions of `detectRequiredTools` and its helpers
(`src/unnamed/part_005`, lines 46–634) -/

/-- JS `/\b(today|tomorrow|now|currently|right|this|next|week|month|year|visit|visiting|travel|traveling|go|going|to|from|in|at|for|the|and|or|with)\b/i`
— the weather trigger's `excludeWords` (line 57). -/
def weatherExcludeRE : RE :=
  wordAltTest ["today", "tomorrow", "now", "currently", "right", "this", "next", "week",
    "month", "year", "visit", "visiting", "travel", "traveling", "go", "going", "to",
    "from", "in", "at", "for", "the", "and", "or", "with"]

/-- JS `/\b(?:to|in|for|at)\s+([A-Z][a-z]{2,}(?:\s+[A-Z][a-z]+)*)\b/` (line 61). -/
def weatherLoc1RE : RE :=
  rcat [RE.wordB, ralt [rstr "to", rstr "in", rstr "for", rstr "at"], rplus rws,
    RE.grp 1 (rcat [rupper, rmin rlower 2, rstar (rcat [rplus rws, rupper, rplus rlower])]),
    RE.wordB]

/-- JS `/\b(?:to|in|for|at)\s+([a-z]{3,}(?:\s+[a-z]+)*)\b/i` (line 66). -/
def weatherLoc2RE : RE :=
  rcat [RE.wordB, ralt (["to", "in", "for", "at"].map ristr), rplus rws,
    RE.grp 1 (rcat [rmin rialpha 3, rstar (rcat [rplus rws, rplus rialpha])]), RE.wordB]

/-- JS `/^[A-Z][a-z]{2,}$/` — the standalone capitalized-word test (lines 81, 121, 258),
used through `regexTestFull`. -/
def capWordRE : RE := rcat [rupper, rmin rlower 2]

/-- JS `/\b(today|tomorrow|now|currently|right|this|next|week|month|year|visit|visiting|travel|traveling|go|going)\b/i`
— the country trigger's `excludeWords` (line 114). -/
def countryExcludeRE : RE :=
  wordAltTest ["today", "tomorrow", "now", "currently", "right", "this", "next", "week",
    "month", "year", "visit", "visiting", "travel", "traveling", "go", "going"]

/-- JS `/\b(?:in|to|for|at|of)\s+([a-z]{3,}(?:\s+[a-z]+)?)\b/i` (line 116). -/
def countryLocRE : RE :=
  rcat [RE.wordB, ralt (["in", "to", "for", "at", "of"].map ristr), rplus rws,
    RE.grp 1 (rcat [rmin rialpha 3, ropt (rcat [rplus rws, rplus rialpha])]), RE.wordB]

/-- JS `/(\d+(?:,\d{3})*(?:\.\d{2})?)/` — the currency amount (line 555). -/
def amountRE : RE :=
  RE.grp 1 (rcat [rplus rdigit, rstar (rcat [rchr ',', rbetween rdigit 3 3]),
    ropt (rcat [rchr '.', rbetween rdigit 2 2])])

/-- JS `/\b(today|…|august|find|cool|place|best|good|great)\b/i`
— the hotel trigger's `excludeWords` (line 185). -/
def hotelExcludeRE : RE :=
  wordAltTest ["today", "tomorrow", "now", "currently", "right", "this", "next", "week",
    "month", "year", "september", "october", "november", "december", "january",
    "february", "march", "april", "may", "june", "july", "august", "find", "cool",
    "place", "best", "good", "great"]

/-- JS `/\b(?:in|at|near|around)\s+([A-Z][a-z]+(?:\s+[A-Z][a-z]+)?)\b/`
— the preposition-plus-capitalized-location pattern, written identically at the
hotel trigger (line 188) and the places trigger (line 247). -/
def prepCapLocRE : RE :=
  rcat [RE.wordB, ralt (["in", "at", "near", "around"].map rstr), rplus rws,
    RE.grp 1 (rcat [rupper, rplus rlower, ropt (rcat [rplus rws, rupper, rplus rlower])]),
    RE.wordB]

/-- JS `/hotel[s]?\s+(?:in|at|near)\s+([A-Z][a-z]{2,}(?:\s+[A-Z][a-z]+)?)/i` (line 192). -/
def hotelLoc2RE : RE :=
  rcat [ristr "hotel", ropt (richr 's'), rplus rws, ralt (["in", "at", "near"].map ristr),
    rplus rws,
    RE.grp 1 (rcat [rialpha, rmin rialpha 2, ropt (rcat [rplus rws, rialpha, rplus rialpha])])]

/-- JS `/\b(today|…|august)\b/i` — the places trigger's `excludeWords` (line 244). -/
def placesExcludeRE : RE :=
  wordAltTest ["today", "tomorrow", "now", "currently", "right", "this", "next", "week",
    "month", "year", "september", "october", "november", "december", "january",
    "february", "march", "april", "may", "june", "july", "august"]

/-- JS `/(?:restaurant|eat|food|cafe|bar|attraction|see|visit|museum|park|shopping|things to (?:do|see))\s+(?:in|at|near)\s+([A-Z][a-z]{2,}(?:\s+[A-Z][a-z]+)?)/i`
(line 251). -/
def placesLoc2RE : RE :=
  rcat [ralt ((["restaurant", "eat", "food", "cafe", "bar", "attraction", "see", "visit",
      "museum", "park", "shopping"].map ristr) ++
      [rcat [ristr "things to ", ralt [ristr "do", ristr "see"]]]),
    rplus rws, ralt (["in", "at", "near"].map ristr), rplus rws,
    RE.grp 1 (rcat [rialpha, rmin rialpha 2, ropt (rcat [rplus rws, rialpha, rplus rialpha])])]

/-- The trailing `(?:\s+(?:help|find|search|book|get|show|in|for|during|on)\b|$)`
shared by the three `extractFlightCities` patterns (lines 323–344). -/
def flightTailRE : RE :=
  ralt [rcat [rplus rws,
      ralt (["help", "find", "search", "book", "get", "show", "in", "for", "during", "on"].map ristr),
      RE.wordB], RE.eos]

/-- The lazy city group `([a-z]+(?:\s+[a-z]+){0,2}?)` of `extractFlightCities`
(under the `i` flag), as capture group `n`. -/
def flightCityGrp (n : Nat) : RE :=
  RE.grp n (rcat [rplus rialpha, rbetweenLazy (rcat [rplus rws, rplus rialpha]) 0 2])

/-- JS `/(?:from|flying from|travel from)\s+([a-z]+(?:\s+[a-z]+){0,2}?)\s+to\s+([a-z]+(?:\s+[a-z]+){0,2}?)(?:\s+(?:help|find|search|book|get|show|in|for|during|on)\b|$)/i`
(line 323). -/
def flightFromToRE : RE :=
  rcat [ralt (["from", "flying from", "travel from"].map ristr), rplus rws,
    flightCityGrp 1, rplus rws, ristr "to", rplus rws, flightCityGrp 2, flightTailRE]

/-- JS `/(?:to|flying to|fly to|travel to)\s+([a-z]+(?:\s+[a-z]+){0,2}?)\s+from\s+([a-z]+(?:\s+[a-z]+){0,2}?)(?:\s+(?:help|…|on)\b|$)/i`
(line 324). -/
def flightToFromRE : RE :=
  rcat [ralt (["to", "flying to", "fly to", "travel to"].map ristr), rplus rws,
    flightCityGrp 1, rplus rws, ristr "from", rplus rws, flightCityGrp 2, flightTailRE]

/-- JS `/(?:fly to|flight to|flying to|flights to|travel to|going to)\s+([a-z]+(?:\s+[a-z]+){0,2}?)(?:\s+(?:help|…|on)\b|$)/i`
(line 344). -/
def flightToOnlyRE : RE :=
  rcat [ralt (["fly to", "flight to", "flying to", "flights to", "travel to", "going to"].map ristr),
    rplus rws, flightCityGrp 1, flightTailRE]

/-- The group `([A-Z][a-z]+(?:\s+[A-Z][a-z]+)?)` under the `i` flag (two-or-more
letters, optional second word), shared by the history-scanning patterns. -/
def ctxCapLocGrp (n : Nat) : RE :=
  RE.grp n (rcat [rialpha, rplus rialpha, ropt (rcat [rplus rws, rialpha, rplus rialpha])])

/-- JS `/(?:from|flying from|travel from)\s+([A-Z][a-z]+(?:\s+[A-Z][a-z]+)?)\s+to\s+([A-Z][a-z]+(?:\s+[A-Z][a-z]+)?)/i`
of `extractFlightDestinationFromContext` (line 390). -/
def ctxDestFromToRE : RE :=
  rcat [ralt (["from", "flying from", "travel from"].map ristr), rplus rws,
    ctxCapLocGrp 1, rplus rws, ristr "to", rplus rws, ctxCapLocGrp 2]

/-- JS `/(?:fly to|flight to|flying to|flights to|travel to|going to|visit|visiting)\s+([A-Z][a-z]+(?:\s+[A-Z][a-z]+)?)/i`
(line 397). -/
def ctxFlightToRE : RE :=
  rcat [ralt (["fly to", "flight to", "flying to", "flights to", "travel to", "going to",
      "visit", "visiting"].map ristr), rplus rws, ctxCapLocGrp 1]

/-- JS `/\b(Lisbon|Paris|London|Tokyo|New York|Rome|Barcelona|Berlin|Madrid|Amsterdam|Prague|Vienna|Athens|Dublin|Istanbul|Dubai|Bangkok|Singapore|Sydney|Melbourne)\b/i`
(line 404). -/
def ctxCityRE : RE :=
  rcat [RE.wordB,
    RE.grp 1 (ralt (["Lisbon", "Paris", "London", "Tokyo", "New York", "Rome", "Barcelona",
      "Berlin", "Madrid", "Amsterdam", "Prague", "Vienna", "Athens", "Dublin", "Istanbul",
      "Dubai", "Bangkok", "Singapore", "Sydney", "Melbourne"].map ristr)), RE.wordB]

/-- JS `/(?:from|flying from|travel from|traveling from)\s+([A-Z][a-z]+(?:\s+[A-Z][a-z]+)?)\s+to\s+([A-Z][a-z]+)/i`
of `extractFlightOriginFromContext` (line 434). -/
def ctxOriginFromToRE : RE :=
  rcat [ralt (["from", "flying from", "travel from", "traveling from"].map ristr), rplus rws,
    ctxCapLocGrp 1, rplus rws, ristr "to", rplus rws,
    RE.grp 2 (rcat [rialpha, rplus rialpha])]

/-- JS `/\b(?:from|leaving from)\s+([A-Z][a-z]+(?:\s+[A-Z][a-z]+)?)\b/i` (line 441). -/
def ctxOriginFromRE : RE :=
  rcat [RE.wordB, ralt (["from", "leaving from"].map ristr), rplus rws, ctxCapLocGrp 1,
    RE.wordB]

/-- The group `([a-z]{2,}(?:\s+[a-z]+)?)` under the `i` flag, shared by the
first five `destinationPatterns` of `extractLocationFromContext`. -/
def destLocGrp : RE :=
  RE.grp 1 (rcat [rmin rialpha 2, ropt (rcat [rplus rws, rplus rialpha])])

/-- JS `/travel(?:ing)?\s+(?:from\s+[a-z]+\s+)?to\s+([a-z]{2,}(?:\s+[a-z]+)?)\b/i` (line 516). -/
def destPattern1RE : RE :=
  rcat [ristr "travel", ropt (ristr "ing"), rplus rws,
    ropt (rcat [ristr "from", rplus rws, rplus rialpha, rplus rws]),
    ristr "to", rplus rws, destLocGrp, RE.wordB]

/-- JS `/(?:fly|flying)\s+(?:from\s+[a-z]+\s+)?to\s+([a-z]{2,}(?:\s+[a-z]+)?)\b/i` (line 517). -/
def destPattern2RE : RE :=
  rcat [ralt [ristr "fly", ristr "flying"], rplus rws,
    ropt (rcat [ristr "from", rplus rws, rplus rialpha, rplus rws]),
    ristr "to", rplus rws, destLocGrp, RE.wordB]

/-- JS `/(?:going|go)\s+to\s+([a-z]{2,}(?:\s+[a-z]+)?)\b/i` (line 518). -/
def destPattern3RE : RE :=
  rcat [ralt [ristr "going", ristr "go"], rplus rws, ristr "to", rplus rws, destLocGrp,
    RE.wordB]

/-- JS `/(?:visit|visiting)\s+([a-z]{2,}(?:\s+[a-z]+)?)\b/i` (line 519). -/
def destPattern4RE : RE :=
  rcat [ralt [ristr "visit", ristr "visiting"], rplus rws, destLocGrp, RE.wordB]

/-- JS `/trip\s+to\s+([a-z]{2,}(?:\s+[a-z]+)?)\b/i` (line 520). -/
def destPattern5RE : RE :=
  rcat [ristr "trip", rplus rws, ristr "to", rplus rws, destLocGrp, RE.wordB]

/-- JS `/\bin\s+([A-Z][a-z]{2,})\b(?![,\s]+(?:in|during|when))/` (line 522, case-sensitive). -/
def destPattern6RE : RE :=
  rcat [RE.wordB, rstr "in", rplus rws, RE.grp 1 (rcat [rupper, rmin rlower 2]), RE.wordB,
    RE.lookNeg (rcat [rplus (RE.cls (fun c => c = ',' || isSpaceJS c)),
      ralt (["in", "during", "when"].map rstr)])]

/-- The ordered `destinationPatterns` array of `extractLocationFromContext`
(lines 514–523). -/
def destinationPatternsRE : List RE :=
  [destPattern1RE, destPattern2RE, destPattern3RE, destPattern4RE, destPattern5RE,
    destPattern6RE]

/-! ## The hallucination signatures of the flight validation
(`src/unnamed/part_005`, lines 781–786) -/

/-- JS `/\$\d{2,4}|\â‚ª\d{2,4}|â‚¬\d{2,4}|Â£\d{2,4}/` (line 781; the escaped
`\â` is the literal character, and the currency signs are the mojibake
sequences the file actually stores). -/
def hasPriceRE : RE :=
  ralt [rcat [rchr '$', rbetween rdigit 2 4],
    rcat [rstr mojiShekel, rbetween rdigit 2 4],
    rcat [rstr mojiEuro, rbetween rdigit 2 4],
    rcat [rstr mojiPound, rbetween rdigit 2 4]]

/-- JS `/(?:January|February|March|April|May|June|July|August|September|October|November|December)\s+\d{1,2}(?:st|nd|rd|th)?(?:,?\s+\d{4})?/`
(line 782, case-sensitive). -/
def hasDateRE : RE :=
  rcat [ralt (["January", "February", "March", "April", "May", "June", "July", "August",
      "September", "October", "November", "December"].map rstr),
    rplus rws, rbetween rdigit 1 2,
    ropt (ralt (["st", "nd", "rd", "th"].map rstr)),
    ropt (rcat [ropt (rchr ','), rplus rws, rbetween rdigit 4 4])]

/-- JS `/(?:Turkish|Lufthansa|Austrian|Emirates|United|Delta|British Airways|Air France|KLM|Qatar|Etihad|Singapore|Cathay|El Al|Ryanair|EasyJet|Southwest)\s+(?:Airlines?|Airways)?/i`
(line 783). -/
def hasAirlineRE : RE :=
  rcat [ralt (["Turkish", "Lufthansa", "Austrian", "Emirates", "United", "Delta",
      "British Airways", "Air France", "KLM", "Qatar", "Etihad", "Singapore", "Cathay",
      "El Al", "Ryanair", "EasyJet", "Southwest"].map ristr),
    rplus rws,
    ropt (ralt [rcat [ristr "Airline", ropt (richr 's')], ristr "Airways"])]

/-- JS `/\b(?:[A-Z]{2}|[0-9A-Z]{2})\s*\d{3,4}\b/` (line 784). -/
def hasFlightNumRE : RE :=
  rcat [RE.wordB, ralt [rcat [rupper, rupper], rcat [rdigUp, rdigUp]], rstar rws,
    rbetween rdigit 3 4, RE.wordB]

/-- JS `/\$\d+\s*-\s*\$\d+|â‚ª\d+\s*-\s*â‚ª\d+|â‚¬\d+\s*-\s*â‚¬\d+/` (line 785). -/
def hasPriceRangeRE : RE :=
  ralt [rcat [rchr '$', rplus rdigit, rstar rws, rchr '-', rstar rws, rchr '$', rplus rdigit],
    rcat [rstr mojiShekel, rplus rdigit, rstar rws, rchr '-', rstar rws, rstr mojiShekel,
      rplus rdigit],
    rcat [rstr mojiEuro, rplus rdigit, rstar rws, rchr '-', rstar rws, rstr mojiEuro,
      rplus rdigit]]

/-- JS `/\d{1,2}:\d{2}\s*(?:AM|PM|am|pm)/` (line 786, case-sensitive). -/
def hasTimesRE : RE :=
  rcat [rbetween rdigit 1 2, rchr ':', rbetween rdigit 2 2, rstar rws,
    ralt (["AM", "PM", "am", "pm"].map rstr)]

/-- The disjunction of the six signature tests that the flight validation block
computes on the draft answer (`hasPricePattern || hasSpecificDatePattern ||
hasAirlineNames || hasFlightNumbers || hasSpecificPriceRange || hasInventedTimes`,
lines 781–788). -/
def hasFlightHallucination (responseText : String) : Bool :=
  regexTest hasPriceRE responseText || regexTest hasDateRE responseText ||
  regexTest hasAirlineRE responseText || regexTest hasFlightNumRE responseText ||
  regexTest hasPriceRangeRE responseText || regexTest hasTimesRE responseText

/-! ## JavaScript JSON values, `JSON.stringify` and `JSON.parse` -/

/-- Opening brace character, written via its code point. -/
def braceOpen : Char := Char.ofNat 123

/-- Closing brace character. -/
def braceClose : Char := Char.ofNat 125

/-- A JavaScript value as far as this program manipulates them.  Numbers are
kept as their decimal lexeme: the only numbers this embedding ever builds are
the integer currency amounts of `extractCurrencyConversion`, for which the
lexeme is exactly what `JSON.stringify` would print. -/
inductive JSValue where
  | null : JSValue
  | bool : Bool → JSValue
  | num : String → JSValue
  | str : String → JSValue
  | arr : List JSValue → JSValue
  | obj : List (String × JSValue) → JSValue

/-- Hexadecimal digit. -/
def hexDigit (n : Nat) : Char :=
  if n < 10 then Char.ofNat (48 + n) else Char.ofNat (87 + n)

/-- Four-digit hexadecimal rendering for `\u` escapes. -/
def hex4 (n : Nat) : String :=
  String.mk [hexDigit (n / 4096 % 16), hexDigit (n / 256 % 16), hexDigit (n / 16 % 16),
    hexDigit (n % 16)]

/-- One character of a `JSON.stringify` string body. -/
def jsonEscapeChar (c : Char) : String :=
  if c = '"' then "\\\""
  else if c = '\\' then "\\\\"
  else if c = '\n' then "\\n"
  else if c = '\r' then "\\r"
  else if c = '\t' then "\\t"
  else if c.toNat = 8 then "\\b"
  else if c.toNat = 12 then "\\f"
  else if c.toNat < 32 then "\\u" ++ hex4 c.toNat
  else String.singleton c

/-- `JSON.stringify` of a string: the quoted, escaped string literal. -/
def jsonQuote (s : String) : String :=
  "\"" ++ String.join (s.data.map jsonEscapeChar) ++ "\""

mutual

/-- `JSON.stringify` without an indent argument (the form used for tool
arguments).  `JSON.stringify(x, null, 2)` differs only on objects and arrays,
and the only value the program passes to it is the tool's result string, for
which the two forms agree. -/
def jsonStringify : JSValue → String
  | .null => "null"
  | .bool true => "true"
  | .bool false => "false"
  | .num l => l
  | .str s => jsonQuote s
  | .arr xs => "[" ++ jsonStringifyList xs ++ "]"
  | .obj fs => String.singleton braceOpen ++ jsonStringifyFields fs ++ String.singleton braceClose

/-- Comma-separated array elements. -/
def jsonStringifyList : List JSValue → String
  | [] => ""
  | [x] => jsonStringify x
  | x :: t => jsonStringify x ++ "," ++ jsonStringifyList t

/-- Comma-separated `"key":value` pairs, in insertion order. -/
def jsonStringifyFields : List (String × JSValue) → String
  | [] => ""
  | [(k, v)] => jsonQuote k ++ ":" ++ jsonStringify v
  | (k, v) :: t => jsonQuote k ++ ":" ++ jsonStringify v ++ "," ++ jsonStringifyFields t

end

/-- JSON whitespace skipping for `JSON.parse`. -/
def skipWsJson (l : List Char) : List Char :=
  l.dropWhile (fun c => c = ' ' || c = '\t' || c = '\n' || c = '\r')

/-- Value of a hexadecimal digit. -/
def hexVal? (c : Char) : Option Nat :=
  if c.isDigit then some (c.toNat - 48)
  else if 'a' ≤ c ∧ c ≤ 'f' then some (c.toNat - 87)
  else if 'A' ≤ c ∧ c ≤ 'F' then some (c.toNat - 55)
  else none

/-- String-body scanner of `JSON.parse`, entered after the opening quote;
returns the decoded string and the rest of the input.  Raw control characters
and malformed escapes are rejected, as in JS. -/
def jsonParseStrGo : List Char → List Char → Option (String × List Char)
  | [], _ => none
  | c :: t, acc =>
    if c = '"' then some (String.mk acc.reverse, t)
    else if c = '\\' then
      match t with
      | [] => none
      | e :: t2 =>
        if e = '"' then jsonParseStrGo t2 ('"' :: acc)
        else if e = '\\' then jsonParseStrGo t2 ('\\' :: acc)
        else if e = '/' then jsonParseStrGo t2 ('/' :: acc)
        else if e = 'b' then jsonParseStrGo t2 (Char.ofNat 8 :: acc)
        else if e = 'f' then jsonParseStrGo t2 (Char.ofNat 12 :: acc)
        else if e = 'n' then jsonParseStrGo t2 ('\n' :: acc)
        else if e = 'r' then jsonParseStrGo t2 ('\r' :: acc)
        else if e = 't' then jsonParseStrGo t2 ('\t' :: acc)
        else if e = 'u' then
          match t2 with
          | h1 :: h2 :: h3 :: h4 :: t3 =>
            match hexVal? h1, hexVal? h2, hexVal? h3, hexVal? h4 with
            | some a, some b, some c2, some d =>
              jsonParseStrGo t3 (Char.ofNat (a * 4096 + b * 256 + c2 * 16 + d) :: acc)
            | _, _, _, _ => none
          | _ => none
        else none
    else if c.toNat < 32 then none
    else jsonParseStrGo t (c :: acc)

/-- Number lexeme scanner of `JSON.parse`: optional minus, digits, optional
fraction, optional exponent, kept as a lexeme. -/
def jsonParseNum (l : List Char) : Option (JSValue × List Char) :=
  let (neg, l1) := match l with
    | c :: t => if c = '-' then ([c], t) else ([], l)
    | [] => ([], l)
  let intPart := l1.takeWhile Char.isDigit
  let l2 := l1.dropWhile Char.isDigit
  if intPart.isEmpty then none
  else
    let (frac, l3) := match l2 with
      | c :: t =>
        if c = '.' then
          let ds := t.takeWhile Char.isDigit
          if ds.isEmpty then ([], l2) else (c :: ds, t.dropWhile Char.isDigit)
        else ([], l2)
      | [] => ([], l2)
    let (ex, l4) := match l3 with
      | c :: t =>
        if c = 'e' ∨ c = 'E' then
          let (sgn, t2) := match t with
            | s :: t3 => if s = '+' ∨ s = '-' then ([s], t3) else ([], t)
            | [] => ([], t)
          let ds := t2.takeWhile Char.isDigit
          if ds.isEmpty then ([], l3) else (c :: (sgn ++ ds), t2.dropWhile Char.isDigit)
        else ([], l3)
      | [] => ([], l3)
    some (.num (String.mk (neg ++ intPart ++ frac ++ ex)), l4)

mutual

/-- Fuel-bounded recursive-descent `JSON.parse` of one value. -/
def jsonParseVal : Nat → List Char → Option (JSValue × List Char)
  | 0, _ => none
  | fuel + 1, input =>
    match skipWsJson input with
    | [] => none
    | c :: t =>
      if c = '"' then (jsonParseStrGo t []).map (fun p => (JSValue.str p.1, p.2))
      else if c = braceOpen then jsonParseObjFields fuel t [] true
      else if c = '[' then jsonParseArrItems fuel t [] true
      else if leadsWith "true".data (c :: t) then some (.bool true, (c :: t).drop 4)
      else if leadsWith "false".data (c :: t) then some (.bool false, (c :: t).drop 5)
      else if leadsWith "null".data (c :: t) then some (.null, (c :: t).drop 4)
      else if c = '-' ∨ c.isDigit then jsonParseNum (c :: t)
      else none

/-- Object-field loop of `JSON.parse` (`first` marks the position just after
the opening brace, where a closing brace is allowed). -/
def jsonParseObjFields (fuel : Nat) (input : List Char) (acc : List (String × JSValue))
    (first : Bool) : Option (JSValue × List Char) :=
  match fuel with
  | 0 => none
  | fuel + 1 =>
    match skipWsJson input with
    | [] => none
    | c :: t =>
      if c = braceClose ∧ first then some (.obj acc.reverse, t)
      else
        match skipWsJson (if first then c :: t else
          if c = ',' then t else []) with
        | [] => none
        | k :: kt =>
          if k = '"' then
            match jsonParseStrGo kt [] with
            | some (key, rest) =>
              match skipWsJson rest with
              | colon :: vrest =>
                if colon = ':' then
                  match jsonParseVal fuel vrest with
                  | some (v, rest2) =>
                    match skipWsJson rest2 with
                    | d :: drest =>
                      if d = braceClose then some (.obj ((key, v) :: acc).reverse, drest)
                      else if d = ',' then
                        jsonParseObjFields fuel (d :: drest) ((key, v) :: acc) false
                      else none
                    | [] => none
                  | none => none
                else none
              | [] => none
            | none => none
          else none

/-- Array-item loop of `JSON.parse`. -/
def jsonParseArrItems (fuel : Nat) (input : List Char) (acc : List JSValue)
    (first : Bool) : Option (JSValue × List Char) :=
  match fuel with
  | 0 => none
  | fuel + 1 =>
    match skipWsJson input with
    | [] => none
    | c :: t =>
      if c = ']' ∧ first then some (.arr acc.reverse, t)
      else
        let rest0 := if first then c :: t else if c = ',' then t else []
        match jsonParseVal fuel rest0 with
        | some (v, rest) =>
          match skipWsJson rest with
          | d :: drest =>
            if d = ']' then some (.arr (v :: acc).reverse, drest)
            else if d = ',' then jsonParseArrItems fuel (d :: drest) (v :: acc) false
            else none
          | [] => none
        | none => none

end

/-- JS `JSON.parse`: `none` models a thrown `SyntaxError`. -/
def jsonParse (s : String) : Option JSValue :=
  match jsonParseVal (s.length + 1) s.data with
  | some (v, rest) => if (skipWsJson rest).isEmpty then some v else none
  | none => none

/-- JS property access `v[k]` on a parsed value: `none` models `undefined`.
Objects retain their field order; a duplicate key (impossible for the objects
this program builds) would resolve to the last occurrence, as in JS. -/
def getField (v : JSValue) (k : String) : Option JSValue :=
  match v with
  | .obj fs => ((fs.filter (fun f => f.1 = k)).map (fun f => f.2)).getLast?
  | _ => none

/-- JS truthiness of a possibly-`undefined` value. -/
def jsTruthy : Option JSValue → Bool
  | none => false
  | some .null => false
  | some (.bool b) => b
  | some (.str s) => !s.isEmpty
  | some (.num l) => !(l.data.all (fun c => c = '0' || c = '.' || c = '-' || c = '+'))
  | some (.arr _) => true
  | some (.obj _) => true

/-- JS string interpolation `${x}` of a possibly-`undefined` value (array and
object rendering abbreviated to the JS defaults). -/
def jsDisplay : Option JSValue → String
  | none => "undefined"
  | some .null => "null"
  | some (.bool true) => "true"
  | some (.bool false) => "false"
  | some (.num l) => l
  | some (.str s) => s
  | some (.arr _) => ""
  | some (.obj _) => "[object Object]"

/-! ## Chat messages and the tool catalog -/

/-- A LangChain message: `SystemMessage`, `HumanMessage` or `AIMessage`.
The stored `chatHistory` only ever holds `human` and `ai` entries
(`processMessage` pushes exactly those, `clearHistory` empties the list). -/
inductive Msg where
  | system : String → Msg
  | human : String → Msg
  | ai : String → Msg
deriving DecidableEq, Repr

/-- Message text (`.content`). -/
def Msg.content : Msg → String
  | .system s => s
  | .human s => s
  | .ai s => s

/-- Does `_getType()` return `'system'`? -/
def Msg.isSystem : Msg → Bool
  | .system _ => true
  | _ => false

/-- Does `_getType()` return `'ai'` (equivalently, is the constructor `AIMessage`)?
Both history-scanning guards of the source test exactly this. -/
def Msg.isAi : Msg → Bool
  | .ai _ => true
  | _ => false

/-- A scheduled tool call `{name, args}` as produced by `detectRequiredTools`. -/
structure ToolCall where
  name : String
  args : JSValue

/-- The names of the tools registered in the `travelTools` catalog, in array
order (`src/src/agents/tools.js`, lines 550–557: `weatherTool`, `countryTool`,
`contextAnalysisTool`, `currencyTool`, `hotelTool`, `flightTool`). -/
def travelToolNames : List String :=
  ["get_weather", "get_country_info", "analyze_user_context", "get_currency_exchange",
    "search_hotels", "search_flights"]

/-! ## The query classifier (`src/unnamed/part_006`, lines 6–212) -/

/-- The `destination` template's keywords (`src/unnamed/part_006`, lines 8–12). -/
def destinationKeywords : List String :=
  ["where should", "where can", "where to", "destination", "place to visit",
   "recommend a", "suggest a", "country", "city", "travel to", "trip to",
   "vacation in", "holiday in", "visit", "looking for somewhere"]

/-- The `packing` template's keywords (lines 41–45). -/
def packingKeywords : List String :=
  ["pack", "packing", "bring", "take", "luggage", "suitcase",
   "what to wear", "what should i wear", "clothes", "clothing",
   "gear", "essentials", "items", "stuff"]

/-- The `attractions` template's keywords (lines 86–91). -/
def attractionsKeywords : List String :=
  ["do in", "do at", "see in", "see at", "visit in", "attractions",
   "activities", "things to do", "sights", "itinerary", "places",
   "restaurants", "eat", "food", "nightlife", "fun", "entertainment",
   "must see", "best", "top", "recommended"]

/-- Keyword lists of `queryTemplates`, in enumeration order; the `general`
entry has an empty keyword list and is skipped by the scoring loop
(`if (type === 'general') continue`), so only these three participate.
The `systemAddition` texts of the templates are not read by
`identifyQueryType` and are not modelled. -/
def queryTemplateKeywords : List (String × List String) :=
  [("destination", destinationKeywords),
   ("packing", packingKeywords),
   ("attractions", attractionsKeywords)]

/-- Score of one category: per matched keyword, weight 2 when the keyword is
longer than 10 characters and 1 otherwise (lines 189–196). -/
def keywordScore (messageLower : String) (kws : List String) : Nat :=
  kws.foldl (fun acc kw =>
    if strIncludes messageLower kw then acc + (if kw.length > 10 then 2 else 1) else acc) 0

/-- JS `identifyQueryType` (lines 181–212): lower-case the message, score each
non-general category, keep the first highest score (`score > maxScore`), and
fall back to `'general'` below the minimum score 1. -/
def identifyQueryType (userMessage : String) : String :=
  let messageLower := jsToLower userMessage
  let scores := queryTemplateKeywords.map (fun p => (p.1, keywordScore messageLower p.2))
  let sel : Nat × String :=
    scores.foldl (fun acc p => if p.2 > acc.1 then (p.2, p.1) else acc) (0, "general")
  if sel.1 ≥ 1 then sel.2 else "general"

/-! ## The entity extractors of the agent (`src/unnamed/part_005`, lines 316–634) -/

/-- JS `slice(-n)` on an array: the last `n` elements (all of them when fewer). -/
def takeLastN (n : Nat) (l : List Msg) : List Msg := l.drop (l.length - n)

/-- The `cityMap` of `normalizeLocationForFlights` (lines 454–468). -/
def cityMapJS : List (String × String) :=
  [("israel", "Tel Aviv"), ("portugal", "Lisbon"), ("spain", "Madrid"),
   ("france", "Paris"), ("italy", "Rome"), ("germany", "Berlin"), ("uk", "London"),
   ("united kingdom", "London"), ("usa", "New York"), ("united states", "New York"),
   ("japan", "Tokyo"), ("china", "Beijing"), ("australia", "Sydney")]

/-- JS `normalizeLocationForFlights` (lines 453–483): country names map to a
canonical city; anything else is trimmed, split on single spaces, and each word
capitalized. -/
def normalizeLocationForFlights (location : String) : String :=
  let locationLower := trimJS (jsToLower location)
  match (cityMapJS.find? (fun p => p.1 = locationLower)).map (fun p => p.2) with
  | some city => city
  | none => String.intercalate " " ((splitOnChar ' ' (trimJS location)).map capitalizeWordJS)

/-- The per-message pattern cascade of `extractFlightDestinationFromContext`
(lines 387–408): explicit from–to (destination group), then flight-to phrases,
then the fixed city-name list (returned raw, without normalization). -/
def matchFlightDestInContent (content : String) : Option String :=
  match matchG12 ctxDestFromToRE content with
  | some (_, d) => some (normalizeLocationForFlights d)
  | none =>
    match matchG1 ctxFlightToRE content with
    | some m => some (normalizeLocationForFlights m)
    | none =>
      match matchG1 ctxCityRE content with
      | some city => some city
      | none => none

/-- JS `extractFlightDestinationFromContext` (lines 373–412): walk
`this.chatHistory.slice(-10)` in stored order, skip `AIMessage`s, return the
first per-message match. -/
def extractFlightDestinationFromContext (chatHistory : List Msg) : Option String :=
  (takeLastN 10 chatHistory).findSome? (fun msg =>
    if msg.isAi then none else matchFlightDestInContent msg.content)

/-- The per-message pattern cascade of `extractFlightOriginFromContext`
(lines 431–445): explicit from–to (origin group), then standalone `from X`. -/
def matchFlightOriginInContent (content : String) : Option String :=
  match matchG12 ctxOriginFromToRE content with
  | some (o, _) => some (normalizeLocationForFlights o)
  | none =>
    match matchG1 ctxOriginFromRE content with
    | some m => some (normalizeLocationForFlights m)
    | none => none

/-- JS `extractFlightOriginFromContext` (lines 417–449). -/
def extractFlightOriginFromContext (chatHistory : List Msg) : Option String :=
  (takeLastN 10 chatHistory).findSome? (fun msg =>
    if msg.isAi then none else matchFlightOriginInContent msg.content)

/-- The `excludeWords` array of `extractLocationFromContext` (lines 494–500). -/
def locExcludeWords : List String :=
  ["september", "october", "november", "december", "january", "february",
   "march", "april", "may", "june", "july", "august",
   "find", "best", "time", "week", "month", "year", "tomorrow", "today",
   "great", "cool", "place", "the", "a", "during", "when", "where",
   "season", "mid", "peak", "off", "cheapest", "expensive", "direct"]

/-- The per-message pattern cascade of `extractLocationFromContext`
(lines 514–544): try the six `destinationPatterns` in order; a match any of
whose lower-cased words is in `excludeWords` falls through to the next pattern
(the `continue`); an accepted match is word-capitalized. -/
def matchDestinationInContent (content : String) : Option String :=
  destinationPatternsRE.findSome? (fun pat =>
    match matchG1 pat content with
    | some cand =>
      let location := trimJS cand
      let words := splitWsJS (jsToLower location)
      if words.any (fun w => locExcludeWords.contains w) then none
      else some (String.intercalate " " ((splitOnChar ' ' location).map capitalizeWordJS))
    | none => none)

/-- JS `extractLocationFromContext` (lines 488–548): walk
`this.chatHistory.slice(-6)` in stored order, skip `AIMessage`s, return the
first per-message match. -/
def extractLocationFromContext (chatHistory : List Msg) : Option String :=
  (takeLastN 6 chatHistory).findSome? (fun msg =>
    if msg.isAi then none else matchDestinationInContent msg.content)

/-- The ordered `currencyMap` of `extractCurrencyConversion` (lines 561–567),
with the mojibake symbol keys the file actually stores. -/
def currencyMapJS : List (String × String) :=
  [("shekel", "ILS"), ("shekels", "ILS"), ("nis", "ILS"), (mojiShekel, "ILS"),
   ("euro", "EUR"), ("euros", "EUR"), (mojiEuro, "EUR"),
   ("dollar", "USD"), ("dollars", "USD"), ("$", "USD"), ("usd", "USD"),
   ("pound", "GBP"), ("pounds", "GBP"), (mojiPound, "GBP"),
   ("yen", "JPY"), (mojiYen, "JPY")]

/-- JS `x.replace(/,/g, '')`. -/
def stripCommas (s : String) : String := String.mk (s.data.filter (fun c => c ≠ ','))

/-- JS `extractCurrencyConversion` (lines 553–605).  The amount
`parseFloat(amountMatch[1].replace(/,/g, ''))` is kept as its comma-stripped
lexeme; for the integer amounts evaluated in this file that lexeme is exactly
what `JSON.stringify` prints for the resulting number. -/
def extractCurrencyConversion (message : String) : Option JSValue :=
  match matchG1 amountRE message with
  | none => none
  | some amtLex =>
    let amount := stripCommas amtLex
    let messageLower := jsToLower message
    let foundCurrencies := currencyMapJS.foldl (fun acc p =>
      if strIncludes messageLower p.1 then
        (if acc.contains p.2 then acc else acc ++ [p.2])
      else acc) []
    match foundCurrencies with
    | c1 :: c2 :: _ =>
      some (.obj [("amount", .num amount), ("fromCurrency", .str c1), ("toCurrency", .str c2),
        ("reasoning", .str "Currency conversion requested")])
    | [c1] =>
      some (.obj [("amount", .num amount), ("fromCurrency", .str c1),
        ("toCurrency", .str (if c1 = "EUR" then "USD" else "EUR")),
        ("reasoning", .str "Budget conversion for travel planning")])
    | [] => none

/-- JS `extractFlightCities` (lines 319–368), returning `(origin, destination)`. -/
def extractFlightCities (chatHistory : List Msg) (message : String) :
    Option (String × String) :=
  match matchG12 flightFromToRE message with
  | some (o, d) =>
    some (normalizeLocationForFlights (trimJS o), normalizeLocationForFlights (trimJS d))
  | none =>
    match matchG12 flightToFromRE message with
    | some (d, o) =>
      some (normalizeLocationForFlights (trimJS o), normalizeLocationForFlights (trimJS d))
    | none =>
      match matchG1 flightToOnlyRE message with
      | some d =>
        some ((extractFlightOriginFromContext chatHistory).getD "Tel Aviv",
          normalizeLocationForFlights (trimJS d))
      | none =>
        match extractFlightDestinationFromContext chatHistory,
            extractFlightOriginFromContext chatHistory with
        | some dest, some orig => some (orig, dest)
        | _, _ => none

/-- The ordered place-type patterns of `detectPlaceType` (lines 614–623);
they are tested against the lower-cased message, so the case-sensitive JS
patterns are embedded case-sensitively. -/
def placeTypePatterns : List (String × RE) :=
  [("restaurants", ralt (["restaurant", "eat", "eating", "food", "dine", "dining",
      "cuisine", "meal"].map rstr)),
   ("cafes", ralt (["cafe", "cafes", "coffee", "tea", "breakfast", "brunch"].map rstr)),
   ("bars", ralt (["bar", "bars", "pub", "pubs", "nightlife", "drink", "cocktail",
      "beer"].map rstr)),
   ("museums", ralt (["museum", "museums", "gallery", "galleries", "art",
      "exhibition"].map rstr)),
   ("attractions", ralt (["attraction", "attractions", "landmark", "landmarks",
      "monument", "monuments", "sightseeing", "tourist", "visit", "see"].map rstr)),
   ("parks", ralt (["park", "parks", "garden", "gardens", "outdoor", "nature"].map rstr)),
   ("shopping", ralt (["shop", "shopping", "market", "markets", "mall", "stores"].map rstr)),
   ("things_to_do", ralt (["things to do", "activities", "entertainment", "fun",
      "experience"].map rstr))]

/-- JS `detectPlaceType` (lines 610–634): first matching type in order,
defaulting to `'attractions'`. -/
def detectPlaceType (message : String) : String :=
  let messageLower := jsToLower message
  match placeTypePatterns.findSome? (fun p =>
      if regexTest p.2 messageLower then some p.1 else none) with
  | some t => t
  | none => "attractions"

/-! ## The per-tool trigger branches of `detectRequiredTools`
(`src/unnamed/part_005`, lines 46–314) -/

/-- The weather trigger keywords (lines 51–52). -/
def weatherKeywords : List String :=
  ["pack", "packing", "bring", "wear", "weather", "temperature",
   "climat", "warm", "cold", "rain", "today", "right now", "currently"]

/-- Location extraction of the weather branch (lines 57–108): capitalized
preposition pattern, else filtered lowercase preposition pattern, else the
first standalone capitalized word; the survivor is trimmed, its words filtered
against `excludeWords` and by length, capitalized, re-joined, and finally
validated as a whole. -/
def weatherLocation (userMessage : String) : Option String :=
  let m1 := matchG1 weatherLoc1RE userMessage
  let m2 := match m1 with
    | some _ => m1
    | none =>
      match matchG1 weatherLoc2RE userMessage with
      | some cand0 =>
        let candidate := trimJS cand0
        if !regexTest weatherExcludeRE candidate ∧ candidate.length ≥ 3 then some cand0
        else none
      | none => none
  let m3 := match m2 with
    | some _ => m2
    | none =>
      (splitWsJS userMessage).findSome? (fun word =>
        if regexTestFull capWordRE word ∧ !regexTest weatherExcludeRE word then some word
        else none)
  match m3 with
  | none => none
  | some raw =>
    let location := String.intercalate " " (((splitWsJS (trimJS raw)).filter
      (fun w => !regexTest weatherExcludeRE w ∧ w.length ≥ 3)).map capitalizeWordJS)
    if location ≠ "" ∧ location.length ≥ 3 ∧ !regexTest weatherExcludeRE location then
      some location
    else none

/-- The country trigger keywords (line 112). -/
def countryKeywords : List String :=
  ["currency", "money", "language", "speak", "visa", "capital", "timezone"]

/-- Location extraction of the country branch (lines 114–135). -/
def countryLocation (userMessage : String) : Option String :=
  let m1 := matchG1 countryLocRE userMessage
  let m2 := match m1 with
    | some _ => m1
    | none =>
      (splitWsJS userMessage).findSome? (fun word =>
        if regexTestFull capWordRE word ∧ !regexTest countryExcludeRE word then some word
        else none)
  match m2 with
  | none => none
  | some raw =>
    let location := String.intercalate " " (((splitWsJS (trimJS raw)).filter
      (fun w => !regexTest countryExcludeRE w)).map capitalizeWordJS)
    if location ≠ "" then some location else none

/-- The currency trigger keywords (lines 148–150), with the mojibake symbols
of the source file. -/
def currencyKeywords : List String :=
  ["shekel", "shekels", "nis", mojiShekel, "euro", "euros", mojiEuro,
   "dollar", "dollars", "$", "pound", "pounds", mojiPound, "yen", "convert", "exchange",
   "budget", "cost", "price", "expensive", "cheap", "afford"]

/-- The flight trigger keywords (lines 165–166). -/
def flightKeywords : List String :=
  ["flight", "flights", "fly", "flying", "airline", "plane",
   "airport", "ticket", "direct flight", "round trip", "one way"]

/-- The hotel trigger keywords (lines 182–183). -/
def hotelKeywords : List String :=
  ["hotel", "hotels", "stay", "accommodation", "lodging",
   "hostel", "reserve", "book", "room", "where to stay"]

/-- The hotel branch (lines 184–224): preposition-plus-capitalized location,
else `hotel in X`; a missing or excluded match falls back to
`extractLocationFromContext`; a surviving match is filtered, capitalized and
length-checked before scheduling `search_hotels`. -/
def hotelToolCalls (chatHistory : List Msg) (userMessage : String) : List ToolCall :=
  let m1 := matchG1 prepCapLocRE userMessage
  let m2 := match m1 with
    | some _ => m1
    | none => matchG1 hotelLoc2RE userMessage
  let contextPath : List ToolCall :=
    match extractLocationFromContext chatHistory with
    | some ctx =>
      [⟨"search_hotels", .obj [("city", .str ctx),
        ("reasoning", .str "User query asks about accommodation, location from context")]⟩]
    | none => []
  match m2 with
  | none => contextPath
  | some cand =>
    if regexTest hotelExcludeRE cand then contextPath
    else
      let location := String.intercalate " " (((splitWsJS (trimJS cand)).filter
        (fun w => !regexTest hotelExcludeRE w)).map capitalizeWordJS)
      if location ≠ "" ∧ location.length > 2 then
        [⟨"search_hotels", .obj [("city", .str location),
          ("reasoning", .str "User query asks about accommodation")]⟩]
      else []

/-- The places trigger keywords (lines 227–234), each tested with its own
word-boundary regex (lines 237–241). -/
def placesKeywords : List String :=
  ["restaurant", "restaurants", "eat", "eating", "food", "dine", "dining",
   "cafe", "cafes", "coffee", "bar", "bars", "nightlife", "drink",
   "attraction", "attractions", "see", "visit", "sightseeing", "tourist",
   "museum", "museums", "gallery", "galleries", "art",
   "things to do", "activities", "entertainment", "fun",
   "shopping", "shop", "market", "markets",
   "park", "parks", "garden", "gardens", "outdoor",
   "landmark", "landmarks", "monument", "monuments"]

/-- The places branch (lines 243–298). -/
def placesToolCalls (chatHistory : List Msg) (userMessage : String) : List ToolCall :=
  let m1 := matchG1 prepCapLocRE userMessage
  let m2 := match m1 with
    | some _ => m1
    | none => matchG1 placesLoc2RE userMessage
  let m3 := match m2 with
    | some _ => m2
    | none =>
      (splitWsJS userMessage).findSome? (fun word =>
        if regexTestFull capWordRE word ∧ !regexTest placesExcludeRE word then some word
        else none)
  let contextPath : List ToolCall :=
    match extractLocationFromContext chatHistory with
    | some ctx =>
      [⟨"search_places", .obj [("city", .str ctx),
        ("searchType", .str (detectPlaceType userMessage)),
        ("reasoning", .str "User query asks about places, location from context")]⟩]
    | none => []
  match m3 with
  | none => contextPath
  | some cand =>
    if regexTest placesExcludeRE cand then contextPath
    else
      let location := String.intercalate " " (((splitWsJS (trimJS cand)).filter
        (fun w => !regexTest placesExcludeRE w)).map capitalizeWordJS)
      if location ≠ "" ∧ location.length > 2 then
        let placeType := detectPlaceType userMessage
        [⟨"search_places", .obj [("city", .str location), ("searchType", .str placeType),
          ("reasoning", .str ("User query asks about " ++ placeType))]⟩]
      else []

/-- The context-analysis trigger keywords (line 301). -/
def contextKeywords : List String :=
  ["budget", "family", "kids", "children", "week", "days"]

/-- JS `detectRequiredTools` (lines 46–314): run the seven trigger branches in
source order on the lower-cased message (the places branch tests the raw
message with per-keyword word-boundary regexes, and the currency branch
additionally requires a digit), concatenating the scheduled calls. -/
def detectRequiredTools (chatHistory : List Msg) (userMessage : String) : List ToolCall :=
  let messageLower := jsToLower userMessage
  let weatherTools : List ToolCall :=
    if weatherKeywords.any (fun kw => strIncludes messageLower kw) then
      match weatherLocation userMessage with
      | some loc =>
        [⟨"get_weather", .obj [("location", .str loc),
          ("reasoning", .str "User query contains weather-related keywords")]⟩]
      | none => []
    else []
  let countryTools : List ToolCall :=
    if countryKeywords.any (fun kw => strIncludes messageLower kw) then
      match countryLocation userMessage with
      | some loc =>
        [⟨"get_country_info", .obj [("country", .str loc),
          ("reasoning", .str "User query asks about country-specific information")]⟩]
      | none => []
    else []
  let currencyTools : List ToolCall :=
    if currencyKeywords.any (fun kw => strIncludes messageLower kw) ∧
        userMessage.data.any Char.isDigit then
      match extractCurrencyConversion userMessage with
      | some args => [⟨"convert_currency", args⟩]
      | none => []
    else []
  let flightTools : List ToolCall :=
    if flightKeywords.any (fun kw => strIncludes messageLower kw) then
      match extractFlightCities chatHistory userMessage with
      | some (o, d) =>
        [⟨"search_flights", .obj [("origin", .str o), ("destination", .str d),
          ("reasoning", .str "User query asks about flights")]⟩]
      | none => []
    else []
  let hotelTools : List ToolCall :=
    if hotelKeywords.any (fun kw => strIncludes messageLower kw) then
      hotelToolCalls chatHistory userMessage
    else []
  let placesTools : List ToolCall :=
    if placesKeywords.any (fun kw => regexTest (wordAltTest [kw]) userMessage) then
      placesToolCalls chatHistory userMessage
    else []
  let contextTools : List ToolCall :=
    if (contextKeywords.filter (fun kw => strIncludes messageLower kw)).length ≥ 2 then
      [⟨"analyze_user_context", .obj [("userMessage", .str userMessage),
        ("previousContext", .obj [])]⟩]
    else []
  weatherTools ++ countryTools ++ currencyTools ++ flightTools ++ hotelTools ++
    placesTools ++ contextTools

/-! ## The system prompts (`src/src/prompts/system.js`) -/

/-- The `REACT_COT_PROMPT` system prompt (`src/src/prompts/system.js`,
lines 284–310), the first message of every LLM context.  It lists the tool
names `get_weather`, `convert_currency` and `search_flights` in its tools
section, which is what the validation blocks of `processMessage` end up
finding. -/
def REACT_COT_PROMPT : String :=
  "You are a reasoning agent that can use tools to answer travel questions.\n\n## Your Tools:\nYou have access to these tools that provide REAL, CURRENT data:\n- get_weather: Current weather for any location\n- get_country_info: Currency, language, capital, timezone for any country\n- convert_currency: Live exchange rates between currencies\n- search_flights: Flight search links and booking guidance\n- search_hotels: Hotel recommendations and booking platforms\n- analyze_user_context: Track user preferences across conversation\n\n## Reasoning Process:\n1. **Understand** - What is the user really asking?\n2. **Assess** - What tools would provide helpful data?\n3. **Gather** - Tool results will be provided as SystemMessages\n4. **Synthesize** - Combine tool data with your knowledge\n5. **Respond** - Give natural, helpful answers using the REAL data\n6. **Verify** - Did you use the tool data correctly?\n\n## Critical Rules:\n- Tool results appear as SystemMessages in the conversation\n- You MUST use the exact data from tools, not make up your own\n- Flight/hotel prices change constantly - direct users to booking links\n- Never say \"according to my research\" unless a tool actually provided that data\n- Be helpful and natural, but NEVER hallucinate specific numbers\n\nWhen tool data is available, weave it naturally into your response. When it\x27s not, be honest about limitations and provide booking links instead of fake prices."

/-- The `STRICT_PROMPT` anti-hallucination instruction block
(`src/src/prompts/system.js`, lines 246–282). -/
def STRICT_PROMPT : String :=
  "CRITICAL INSTRUCTIONS - READ CAREFULLY:\n\nTools have been executed and returned data for you. You MUST follow these rules:\n\n1. **NEVER INVENT OR HALLUCINATE DATA**\n   - DO NOT make up flight prices, dates, or airline names\n   - DO NOT invent hotel prices or room availability\n   - DO NOT create fake currency exchange rates\n   - DO NOT estimate weather data if tools provided real data\n\n2. **USE ONLY THE EXACT TOOL DATA PROVIDED**\n   - Flight tool returns booking links (Skyscanner, Kayak, Google Flights) - give those links\n   - Flight tool does NOT return specific prices - do not make them up\n   - Currency tool returns exact conversion rates - use those numbers\n   - Weather tool returns current conditions - use those exact values\n   - Hotel tool returns general information - do not add specific prices\n\n3. **WHEN SPECIFIC DATA ISN\x27T AVAILABLE**\n   - For flight prices: Direct users to the booking links provided\n   - For hotel prices: Suggest checking the booking platforms\n   - For future weather: Note it\x27s a forecast and may change\n   - NEVER say \"according to my research\" if you didn\x27t actually get that data from a tool\n\n4. **CORRECT WAY TO HANDLE FLIGHTS**\n   ❌ WRONG: \"Turkish Airlines has a flight for $230 on March 13th\"\n   ✅ RIGHT: \"I\x27ve found flight options from Tel Aviv to Lisbon. Check current prices on: [Skyscanner link], [Kayak link], [Google Flights link]. Prices vary by date, time, and how far in advance you book.\"\n\n5. **CORRECT WAY TO HANDLE CURRENCY**\n   ❌ WRONG: \"That\x27s approximately €1700\" (if tool wasn\x27t used)\n   ✅ RIGHT: Use the exact converted amount from the currency tool\n\n6. **IF YOU\x27RE UNCERTAIN**\n   - Say \"I don\x27t have current price data\" instead of guessing\n   - Provide booking links and let users check themselves\n   - Offer general advice (best time to book, cheap days to fly) without specific numbers\n\nREMEMBER: It\x27s better to say \"check the booking site for current prices\" than to invent a price that could be completely wrong. Users trust you - don\x27t betray that trust with made-up data."

/-! ## Mojibake emoji fragments of the correction templates

Like the currency symbols, the non-ASCII characters of `processMessage`'s
template strings are stored double-encoded in `src/unnamed/part_005`; the
embedding reproduces the stored character sequences. -/

/-- The siren emoji as stored (four characters). -/
def mojiSiren : String := "\u00F0\u0178\u0161\u00A8"

/-- The bar-chart emoji as stored (four characters). -/
def mojiChart : String := "\u00F0\u0178\u201C\u0160"

/-- The up-arrow emoji as stored (five characters). -/
def mojiUpArrow : String := "\u00E2\u00AC\u2020\u00EF\u00B8"

/-- The degree sign as stored (two characters). -/
def mojiDegree : String := "\u00C2\u00B0"

/-! ## The orchestration loop `processMessage` (`src/unnamed/part_005`, lines 639–885)

The LLM and the tool executors are oracles.  `ToolExec` receives the tool name
and the argument object and returns the executor's result string
(every `func` in `src/src/agents/tools.js` returns `JSON.stringify(...)`, a
string) or a thrown error's message.  `LLM` receives the message list and
returns the completion's `content` or a thrown error's message. -/

/-- Oracle type of the tool executors. -/
abbrev ToolExec := String → JSValue → Except String String

/-- Oracle type of `this.llm.invoke`. -/
abbrev LLM := List Msg → Except String String

/-- One record of the `toolsUsed` array: `{tool, input, result}`. -/
structure ToolUse where
  tool : String
  input : JSValue
  result : JSValue

/-- The successful return value of `processMessage`:
`{success: true, content, queryType, reasoning: {steps, toolsUsed, …}}`
(the wall-clock `duration` and the `metadata` block are not modelled). -/
structure OkResult where
  content : String
  queryType : String
  steps : Nat
  toolsUsed : List ToolUse

/-- The return value of `processMessage`. -/
inductive AgentResult where
  | ok : OkResult → AgentResult
  | err : (error : String) → (details : String) → AgentResult

/-- Is the result the `success: true` shape? -/
def AgentResult.isOk : AgentResult → Bool
  | .ok _ => true
  | .err _ _ => false

/-- The fixed apology of the outermost catch (line 881). -/
def apologyError : String :=
  "I encountered an issue processing your request. Could you try rephrasing that?"

/-- The fallback used when `response.content` is falsy (line 855). -/
def fallbackContent : String :=
  "I apologize, but I\x27m having trouble formulating a response. Could you rephrase your question?"

/-- The system notice for a successful tool call (lines 686–688).
`JSON.stringify(toolResult, null, 2)` applied to the executor's result — a
string — is its quoted JSON literal, independent of the indent argument. -/
def execNotice (name : String) (args : JSValue) (toolResult : String) : String :=
  "Tool " ++ name ++ " was executed with arguments " ++ jsonStringify args ++
    " and returned:\n" ++ jsonQuote toolResult

/-- The system notice for a throwing tool call (lines 696–698). -/
def failNotice (name : String) (e : String) : String :=
  "Tool " ++ name ++ " failed with error: " ++ e

/-- The first occurrence of `"returned:\n"` that is followed by at least one
character, and everything after it — the leftmost JS match of
`/returned:\n([\s\S]+)/` with its greedy group 1 (lines 734, 773, 822). -/
def returnedCaptureGo : List Char → Option String
  | [] => none
  | l@(_ :: t) =>
    if leadsWith "returned:\n".data l then
      let rest := l.drop 10
      if rest.isEmpty then returnedCaptureGo t else some (String.mk rest)
    else returnedCaptureGo t

/-- JS `content.match(/returned:\n([\s\S]+)/)`, reduced to its group 1. -/
def returnedCapture (content : String) : Option String := returnedCaptureGo content.data

/-- The `toolsUsed` record of a successful call: the result string parsed as
JSON, or `{rawResult: …}` when parsing throws (lines 673–677). -/
def parseToolResult (toolResult : String) : JSValue :=
  match jsonParse toolResult with
  | some v => v
  | none => .obj [("rawResult", .str toolResult)]

/-- The tool-execution phase (lines 662–702): for each scheduled call whose
name is found in the `travelTools` catalog, invoke its executor, record the
invocation in `toolsUsed`, and push a system notice; a call whose name is not
in the catalog is skipped without any effect.  Returns the message list
(initial system prompt, prior history, notices), the `toolsUsed` records, the
executor invocations actually performed, and the names for which a notice was
pushed. -/
def toolPhase (execT : ToolExec) (chatHistory : List Msg) (userMessage : String) :
    List Msg × List ToolUse × List (String × JSValue) × List String :=
  let requiredTools := detectRequiredTools chatHistory userMessage
  let base := Msg.system REACT_COT_PROMPT :: chatHistory
  requiredTools.foldl (fun acc tc =>
    if travelToolNames.contains tc.name then
      match execT tc.name tc.args with
      | .ok toolResult =>
        (acc.1 ++ [Msg.system (execNotice tc.name tc.args toolResult)],
         acc.2.1 ++ [⟨tc.name, tc.args, parseToolResult toolResult⟩],
         acc.2.2.1 ++ [(tc.name, tc.args)],
         acc.2.2.2 ++ [tc.name])
      | .error e =>
        (acc.1 ++ [Msg.system (failNotice tc.name e)],
         acc.2.1 ++ [⟨tc.name, tc.args, .obj [("success", .bool false), ("error", .str e)]⟩],
         acc.2.2.1 ++ [(tc.name, tc.args)],
         acc.2.2.2 ++ [tc.name])
    else acc) (base, [], [], [])

/-- The message list of the synthesis call (line 705–709): the tool-phase
messages followed by the user's `HumanMessage`. -/
def synthMessages (execT : ToolExec) (chatHistory : List Msg) (userMessage : String) :
    List Msg :=
  (toolPhase execT chatHistory userMessage).1 ++ [Msg.human userMessage]

/-- The `STRICT_PROMPT` block pushed after the synthesis call when tools ran
(lines 714–720). -/
def strictBlock (toolsUsed : List ToolUse) : String :=
  STRICT_PROMPT ++ "\n\n" ++ mojiChart ++ " TOOL RESULTS AVAILABLE ABOVE " ++ mojiUpArrow ++
    "\n" ++ "You MUST use the exact data from these tools in your response.\n" ++
    "DO NOT invent prices, dates, or specific details that weren\x27t provided.\n\n" ++
    "Tools executed: " ++ String.intercalate ", " (toolsUsed.map (fun t => t.tool))

/-- The weather correction instruction (lines 744–751). -/
def weatherCorrection (weatherData : JSValue) : String :=
  mojiSiren ++ " CRITICAL INSTRUCTION:\n" ++
    "The user asked about " ++ jsDisplay (getField weatherData "location") ++ ".\n" ++
    "Use this EXACT data:\n" ++
    "- Location: " ++ jsDisplay (getField weatherData "location") ++ ", " ++
      jsDisplay (getField weatherData "country") ++ "\n" ++
    "- Temperature: " ++ jsDisplay (getField weatherData "temperature") ++ mojiDegree ++
      "C (feels like " ++ jsDisplay (getField weatherData "feelsLike") ++ mojiDegree ++ "C)\n" ++
    "- Condition: " ++ jsDisplay (getField weatherData "condition") ++ "\n" ++
    "- Humidity: " ++ jsDisplay (getField weatherData "humidity") ++ "%\n" ++
    "- Wind: " ++ jsDisplay (getField weatherData "windSpeed") ++ " km/h"

/-- The `bookingLinks` fragment of the flight correction (line 795):
`''` when falsy, the joined `- name: url` lines for an array, and `none`
(a thrown `TypeError`, caught by the block's `catch`) for any other truthy value. -/
def bookingLinksPart (flightData : JSValue) : Option String :=
  match getField flightData "bookingLinks" with
  | some (.arr links) =>
    some (String.intercalate "\n" (links.map (fun link =>
      "- " ++ jsDisplay (getField link "name") ++ ": " ++ jsDisplay (getField link "url"))))
  | v => if jsTruthy v then none else some ""

/-- The `tips` fragment of the flight correction (line 796): `''` when falsy,
`tips.join('\n')` for an array (elements rendered with their JS string
conversion), `none` (thrown, caught) for any other truthy value. -/
def tipsPart (flightData : JSValue) : Option String :=
  match getField flightData "tips" with
  | some (.arr tips) =>
    some (String.intercalate "\n" (tips.map (fun t => jsDisplay (some t))))
  | v => if jsTruthy v then none else some ""

/-- The flight correction instruction (lines 791–801); `none` models a throw
while the template is being built. -/
def flightCorrection (flightData : JSValue) : Option String :=
  match bookingLinksPart flightData, tipsPart flightData with
  | some links, some tips =>
    some (mojiSiren ++ " HALLUCINATION DETECTED! You invented flight details.\n\n" ++
      "CORRECT RESPONSE FORMAT:\n" ++
      "\"I\x27ve found flight options from " ++ jsDisplay (getField flightData "from") ++
      " to " ++ jsDisplay (getField flightData "to") ++ ".\n" ++
      "Check current prices and availability on:\n" ++ links ++ "\n\n" ++
      tips ++ "\n\n" ++
      "DO NOT INVENT:\n" ++
      "- Specific prices like $230, $240, etc.\n" ++
      "- Specific dates like \"March 13th\" or \"March 15th\"\n" ++
      "- Airline names like Turkish Airlines, Lufthansa, etc.\n\n" ++
      "Flight prices change constantly. Direct users to check the booking sites.\"")
  | _, _ => none

/-- JS `x.toFixed(d)` for the number lexemes this embedding produces; any
non-number receiver throws (`none`).  Only integer lexemes can ever reach this
(and in fact the whole currency block is unreachable, see
`processMessage_llm_invoked_exactly_once`); a fractional lexeme is padded or
truncated without rounding. -/
def jsToFixed (v : Option JSValue) (d : Nat) : Option String :=
  match v with
  | some (.num lex) =>
    match splitOnChar '.' lex with
    | [intPart] => some (intPart ++ "." ++ String.mk (List.replicate d '0'))
    | [intPart, frac] =>
      some (intPart ++ "." ++ String.mk ((frac.data ++ List.replicate d '0').take d))
    | _ => some lex
  | _ => none

/-- JS `Math.round(x).toString()` for the same receivers: integer lexemes are
returned unchanged, fractional ones rounded half-up on the first fraction
digit, anything else is `NaN` (also unreachable). -/
def jsRoundToString (v : Option JSValue) : String :=
  match v with
  | some (.num lex) =>
    match splitOnChar '.' lex with
    | [intPart] => intPart
    | [intPart, frac] =>
      match frac.data.head? with
      | some c =>
        if c.isDigit ∧ c.toNat ≥ 53 then
          match intPart.toNat? with
          | some n => toString (n + 1)
          | none => intPart
        else intPart
      | none => intPart
    | _ => "NaN"
  | _ => "NaN"

/-- The currency correction instruction (lines 835–838); `none` models a
throw from `toFixed` on a non-number. -/
def currencyCorrection (currencyData : JSValue) : Option String :=
  match jsToFixed (getField currencyData "converted") 2,
      jsToFixed (getField currencyData "rate") 4 with
  | some conv2, some rate4 =>
    some (mojiSiren ++ " CRITICAL INSTRUCTION:\n" ++
      "Use this EXACT currency conversion:\n" ++
      jsDisplay (getField currencyData "amount") ++ " " ++
      jsDisplay (getField currencyData "fromCurrency") ++ " = " ++ conv2 ++ " " ++
      jsDisplay (getField currencyData "toCurrency") ++ "\n" ++
      "Rate: " ++ rate4)
  | _, _ => none

/-- The outcome of one validation block: the (possibly re-generated) response,
the (possibly extended) message list, whether the block pushed its correction
and re-invoked the LLM (`fired`, with `calls` the attempted invocations and
`stepsInc` the `reasoningSteps` increments, which differ only when the retry
itself throws and is swallowed by the block's `catch`). -/
structure VStep where
  response : String
  messages : List Msg
  fired : Bool
  calls : Nat
  stepsInc : Nat

/-- A validation block that does nothing. -/
def VStep.skip (response : String) (messages : List Msg) : VStep :=
  ⟨response, messages, false, 0, 0⟩

/-- The weather validation block (lines 727–763): locate the first system
message mentioning `get_weather`, extract and parse the payload after
`returned:`, and when it is a successful object whose location the draft does
not mention (case-insensitively), push the correction and re-invoke the LLM
once; any throw inside the block (JSON parse, property access on a
non-object, the retry itself) is caught and logged. -/
def weatherValidation (llm : LLM) (toolsUsed : List ToolUse) (messages : List Msg)
    (response : String) : VStep :=
  match toolsUsed.find? (fun t => t.tool = "get_weather") with
  | none => VStep.skip response messages
  | some _ =>
    match messages.find? (fun m => m.isSystem && strIncludes m.content "get_weather") with
    | none => VStep.skip response messages
    | some weatherMsg =>
      match returnedCapture weatherMsg.content with
      | none => VStep.skip response messages
      | some payload =>
        match jsonParse payload with
        | none => VStep.skip response messages
        | some weatherData =>
          if jsTruthy (getField weatherData "success") &&
              jsTruthy (getField weatherData "location") then
            match getField weatherData "location" with
            | some (.str loc) =>
              if strIncludes (jsToLower response) (jsToLower loc) then
                VStep.skip response messages
              else
                let messages2 := messages ++ [Msg.system (weatherCorrection weatherData)]
                match llm messages2 with
                | .ok r2 => ⟨r2, messages2, true, 1, 1⟩
                | .error _ => ⟨response, messages2, true, 1, 0⟩
            | _ => VStep.skip response messages
          else VStep.skip response messages

/-- The flight validation block (lines 766–812): locate the first system
message mentioning `search_flights`, extract and parse the payload after
`returned:`, and when the draft matches any hallucination signature, push the
correction and re-invoke the LLM once; throws are caught as above. -/
def flightValidation (llm : LLM) (toolsUsed : List ToolUse) (messages : List Msg)
    (response : String) : VStep :=
  match toolsUsed.find? (fun t => t.tool = "search_flights") with
  | none => VStep.skip response messages
  | some _ =>
    match messages.find? (fun m => m.isSystem && strIncludes m.content "search_flights") with
    | none => VStep.skip response messages
    | some flightMsg =>
      match returnedCapture flightMsg.content with
      | none => VStep.skip response messages
      | some payload =>
        match jsonParse payload with
        | none => VStep.skip response messages
        | some flightData =>
          if hasFlightHallucination response then
            match flightCorrection flightData with
            | none => VStep.skip response messages
            | some corr =>
              let messages2 := messages ++ [Msg.system corr]
              match llm messages2 with
              | .ok r2 => ⟨r2, messages2, true, 1, 1⟩
              | .error _ => ⟨response, messages2, true, 1, 0⟩
          else VStep.skip response messages

/-- The currency validation block (lines 815–850): locate the first system
message mentioning `convert_currency`, extract and parse the payload, and when
it is a successful conversion whose converted amount (exact or rounded) the
draft does not contain, push the correction and re-invoke the LLM once. -/
def currencyValidation (llm : LLM) (toolsUsed : List ToolUse) (messages : List Msg)
    (response : String) : VStep :=
  match toolsUsed.find? (fun t => t.tool = "convert_currency") with
  | none => VStep.skip response messages
  | some _ =>
    match messages.find? (fun m => m.isSystem && strIncludes m.content "convert_currency") with
    | none => VStep.skip response messages
    | some currencyMsg =>
      match returnedCapture currencyMsg.content with
      | none => VStep.skip response messages
      | some payload =>
        match jsonParse payload with
        | none => VStep.skip response messages
        | some currencyData =>
          if jsTruthy (getField currencyData "success") &&
              jsTruthy (getField currencyData "converted") then
            let convertedStr := jsDisplay (getField currencyData "converted")
            let mentionsAmount := strIncludes response convertedStr ||
              strIncludes response (jsRoundToString (getField currencyData "converted"))
            if mentionsAmount then VStep.skip response messages
            else
              match currencyCorrection currencyData with
              | none => VStep.skip response messages
              | some corr =>
                let messages2 := messages ++ [Msg.system corr]
                match llm messages2 with
                | .ok r2 => ⟨r2, messages2, true, 1, 1⟩
                | .error _ => ⟨response, messages2, true, 1, 0⟩
          else VStep.skip response messages

/-- JS `this.chatHistory.slice(-20)` truncation applied after the two pushes
(lines 860–862). -/
def histTruncate (h : List Msg) : List Msg :=
  if h.length > 20 then takeLastN 20 h else h

/-- The history update of a successful run (lines 857–862): push the Human and
Assistant turns, then truncate to the window. -/
def updateHistory (h : List Msg) (userMessage finalAnswer : String) : List Msg :=
  histTruncate (h ++ [Msg.human userMessage, Msg.ai finalAnswer])

/-- The instrumented outcome of one `processMessage` call.  `result` and
`chatHistoryAfter` are the observable outputs (return value, stored history);
the remaining fields are instrumentation recording what the run did: every
attempted LLM invocation, every executor invocation, the `toolsUsed` records,
the names for which a tool notice was pushed, and whether each validation
block fired its corrective re-invocation. -/
structure RunTrace where
  result : AgentResult
  chatHistoryAfter : List Msg
  llmCalls : Nat
  synthInput : List Msg
  execCalls : List (String × JSValue)
  toolsUsed : List ToolUse
  noticeNames : List String
  weatherFired : Bool
  flightFired : Bool
  currencyFired : Bool

/-- JS `processMessage` (lines 639–885): classify, detect and execute the
required tools, synthesize once, run the three validation blocks, fall back on
an empty answer, update the stored history, and return the structured result;
a throw of the synthesis invocation reaches the outermost catch, which returns
the apology result and leaves the history untouched. -/
def processMessage (execT : ToolExec) (llm : LLM) (chatHistory : List Msg)
    (userMessage : String) : RunTrace :=
  let queryType := identifyQueryType userMessage
  let requiredTools := detectRequiredTools chatHistory userMessage
  let tp := toolPhase execT chatHistory userMessage
  let toolsUsed := tp.2.1
  let messages1 := synthMessages execT chatHistory userMessage
  let steps0 := (if requiredTools.isEmpty then 0 else 1) + 1
  match llm messages1 with
  | .error e =>
    { result := .err apologyError e, chatHistoryAfter := chatHistory, llmCalls := 1,
      synthInput := messages1, execCalls := tp.2.2.1, toolsUsed := toolsUsed,
      noticeNames := tp.2.2.2, weatherFired := false, flightFired := false,
      currencyFired := false }
  | .ok response0 =>
    if toolsUsed.isEmpty then
      let finalAnswer := if response0 = "" then fallbackContent else response0
      { result := .ok ⟨finalAnswer, queryType, steps0, toolsUsed⟩,
        chatHistoryAfter := updateHistory chatHistory userMessage finalAnswer,
        llmCalls := 1, synthInput := messages1, execCalls := tp.2.2.1,
        toolsUsed := toolsUsed, noticeNames := tp.2.2.2, weatherFired := false,
        flightFired := false, currencyFired := false }
    else
      let messages2 := messages1 ++ [Msg.system (strictBlock toolsUsed)]
      let w := weatherValidation llm toolsUsed messages2 response0
      let f := flightValidation llm toolsUsed w.messages w.response
      let cu := currencyValidation llm toolsUsed f.messages f.response
      let finalAnswer := if cu.response = "" then fallbackContent else cu.response
      { result := .ok ⟨finalAnswer, queryType,
          steps0 + w.stepsInc + f.stepsInc + cu.stepsInc, toolsUsed⟩,
        chatHistoryAfter := updateHistory chatHistory userMessage finalAnswer,
        llmCalls := 1 + w.calls + f.calls + cu.calls, synthInput := messages1,
        execCalls := tp.2.2.1, toolsUsed := toolsUsed, noticeNames := tp.2.2.2,
        weatherFired := w.fired, flightFired := f.fired, currencyFired := cu.fired }

/-- JS `getHistory` (lines 890–895): role `'human'` exactly for
`_getType() === 'human'`, `'ai'` otherwise. -/
def getHistory (chatHistory : List Msg) : List (String × String) :=
  chatHistory.map (fun msg =>
    ((match msg with
      | Msg.human _ => "human"
      | _ => "ai"), msg.content))

/-! ## Spec-side definitions

These definitions follow the specification's words rather than the source,
for the claims that compare the two; each is named `*Spec*` or states the
spec's reading explicitly. -/

/-- Spec-side restatement of the classifier (claim C10): sum the weights on
the lower-cased message per category, return `general` when the maximum score
is below the threshold 1, otherwise the highest-scoring category with ties
broken by the fixed enumeration order (destination, packing, attractions). -/
def identifyQueryTypeSpec (userMessage : String) : String :=
  let ml := jsToLower userMessage
  let s1 := keywordScore ml destinationKeywords
  let s2 := keywordScore ml packingKeywords
  let s3 := keywordScore ml attractionsKeywords
  let maxScore := max s1 (max s2 s3)
  if maxScore < 1 then "general"
  else if s1 = maxScore then "destination"
  else if s2 = maxScore then "packing"
  else "attractions"

/-- Spec-side variant of `extractLocationFromContext` scanning the window
newest-first, as claim C9 describes the scan order ("the last K stored
messages, newest-first"); identical to the source function except for the
direction of the walk. -/
def extractLocationFromContextNewestFirst (chatHistory : List Msg) : Option String :=
  ((takeLastN 6 chatHistory).reverse).findSome? (fun msg =>
    if msg.isAi then none else matchDestinationInContent msg.content)

/-- Spec-side weather violation condition (spec §4.5): the tool result parses
to a successful object with a resolved string location that the draft does not
contain case-insensitively. -/
def specWeatherViolation (toolResult : String) (draft : String) : Bool :=
  match jsonParse toolResult with
  | some v =>
    jsTruthy (getField v "success") &&
      (match getField v "location" with
       | some (.str loc) => !(strIncludes (jsToLower draft) (jsToLower loc))
       | _ => false)
  | none => false

/-- Spec-side flight violation condition (spec §4.5): the draft matches one of
the fixed hallucination signatures. -/
def specFlightViolation (draft : String) : Bool := hasFlightHallucination draft

/-! ## Concrete fixtures for the closed theorems -/

/-- A successful weather-tool result for Berlin, shaped as
`weatherTool.func` returns it (`src/src/agents/tools.js`, lines 56–70). -/
def berlinWeatherJson : String :=
  "\x7b\"success\":true,\"location\":\"Berlin\",\"temperature\":12,\"condition\":\"Cloudy\",\"humidity\":70,\"windSpeed\":10,\"feelsLike\":11\x7d"

/-- A successful flight-tool result, shaped as `flightTool.func` returns it. -/
def parisRomeFlightJson : String :=
  "\x7b\"success\":true,\"from\":\"Paris\",\"to\":\"Rome\"\x7d"

/-- Executor oracle answering the weather and flight tools with the fixtures. -/
def fixtureExec : ToolExec := fun name _ =>
  if name = "get_weather" then .ok berlinWeatherJson else .ok parisRomeFlightJson

/-- Executor oracle whose every invocation throws. -/
def throwingExec : ToolExec := fun _ _ => .error "network down"

/-- LLM oracle always answering a draft with a price signature and no
mention of Berlin. -/
def llmPriceDraft : LLM := fun _ => .ok "Fly for $230 to Rome."

/-- LLM oracle always answering a fixed harmless draft. -/
def llmPlain : LLM := fun _ => .ok "Sorry, no data."

/-- LLM oracle whose every invocation throws. -/
def llmThrowing : LLM := fun _ => .error "boom"

/-- The step function of the tool-execution fold of `toolPhase`, named for the
induction proofs below. -/
def toolStep (execT : ToolExec)
    (acc : List Msg × List ToolUse × List (String × JSValue) × List String)
    (tc : ToolCall) : List Msg × List ToolUse × List (String × JSValue) × List String :=
  if travelToolNames.contains tc.name then
    match execT tc.name tc.args with
    | .ok toolResult =>
      (acc.1 ++ [Msg.system (execNotice tc.name tc.args toolResult)],
       acc.2.1 ++ [⟨tc.name, tc.args, parseToolResult toolResult⟩],
       acc.2.2.1 ++ [(tc.name, tc.args)],
       acc.2.2.2 ++ [tc.name])
    | .error e =>
      (acc.1 ++ [Msg.system (failNotice tc.name e)],
       acc.2.1 ++ [⟨tc.name, tc.args, .obj [("success", .bool false), ("error", .str e)]⟩],
       acc.2.2.1 ++ [(tc.name, tc.args)],
       acc.2.2.2 ++ [tc.name])
  else acc

/-- LLM oracle always answering a draft that never mentions any location. -/
def llmSunny : LLM := fun _ => .ok "It will be sunny."

/-- The `content` returned to the caller (empty for the failure shape). -/
def resultContent : AgentResult → String
  | .ok r => r.content
  | .err _ _ => ""

/-- The argument object the weather trigger builds for `"weather in Paris"`. -/
def weatherParisArgs : JSValue :=
  .obj [("location", .str "Paris"),
    ("reasoning", .str "User query contains weather-related keywords")]

/-- The argument object the weather trigger builds for `"weather in Berlin"`. -/
def weatherBerlinArgs : JSValue :=
  .obj [("location", .str "Berlin"),
    ("reasoning", .str "User query contains weather-related keywords")]

/-- The argument object the flight trigger builds for
`"flight from Paris to Rome"`. -/
def flightParisRomeArgs : JSValue :=
  .obj [("origin", .str "Paris"), ("destination", .str "Rome"),
    ("reasoning", .str "User query asks about flights")]

/-! ## Supporting lemmas -/

set_option maxRecDepth 10000

/-- The system prompt contains the substring `get_weather`. -/
theorem react_mentions_get_weather :
    strIncludes REACT_COT_PROMPT "get_weather" = true := by decide

/-- The system prompt contains the substring `search_flights`. -/
theorem react_mentions_search_flights :
    strIncludes REACT_COT_PROMPT "search_flights" = true := by decide

/-- The system prompt contains the substring `convert_currency`. -/
theorem react_mentions_convert_currency :
    strIncludes REACT_COT_PROMPT "convert_currency" = true := by decide

/-- The system prompt contains no `returned:` payload marker. -/
theorem react_returnedCapture_none :
    returnedCapture REACT_COT_PROMPT = none := by decide

/-- On any message list headed by the system prompt, the weather validation
block does nothing: the `messages.find` locates the prompt itself (which
mentions `get_weather`) and finds no payload after `returned:`. -/
theorem weatherValidation_inert (llm : LLM) (tu : List ToolUse) (rest : List Msg)
    (r : String) :
    weatherValidation llm tu (Msg.system REACT_COT_PROMPT :: rest) r =
      VStep.skip r (Msg.system REACT_COT_PROMPT :: rest) := by
  unfold weatherValidation
  cases htu : tu.find? (fun t => t.tool = "get_weather") with
  | none => rfl
  | some u =>
    have hfind : (Msg.system REACT_COT_PROMPT :: rest).find?
        (fun m => m.isSystem && strIncludes m.content "get_weather") =
        some (Msg.system REACT_COT_PROMPT) := by
      rw [List.find?_cons_of_pos]
      simp [Msg.isSystem, Msg.content, react_mentions_get_weather]
    rw [hfind]
    simp only [Msg.content, react_returnedCapture_none]

/-- On any message list headed by the system prompt, the flight validation
block does nothing, for the same reason. -/
theorem flightValidation_inert (llm : LLM) (tu : List ToolUse) (rest : List Msg)
    (r : String) :
    flightValidation llm tu (Msg.system REACT_COT_PROMPT :: rest) r =
      VStep.skip r (Msg.system REACT_COT_PROMPT :: rest) := by
  unfold flightValidation
  cases htu : tu.find? (fun t => t.tool = "search_flights") with
  | none => rfl
  | some u =>
    have hfind : (Msg.system REACT_COT_PROMPT :: rest).find?
        (fun m => m.isSystem && strIncludes m.content "search_flights") =
        some (Msg.system REACT_COT_PROMPT) := by
      rw [List.find?_cons_of_pos]
      simp [Msg.isSystem, Msg.content, react_mentions_search_flights]
    rw [hfind]
    simp only [Msg.content, react_returnedCapture_none]

/-- On any message list headed by the system prompt, the currency validation
block does nothing, for the same reason. -/
theorem currencyValidation_inert (llm : LLM) (tu : List ToolUse) (rest : List Msg)
    (r : String) :
    currencyValidation llm tu (Msg.system REACT_COT_PROMPT :: rest) r =
      VStep.skip r (Msg.system REACT_COT_PROMPT :: rest) := by
  unfold currencyValidation
  cases htu : tu.find? (fun t => t.tool = "convert_currency") with
  | none => rfl
  | some u =>
    have hfind : (Msg.system REACT_COT_PROMPT :: rest).find?
        (fun m => m.isSystem && strIncludes m.content "convert_currency") =
        some (Msg.system REACT_COT_PROMPT) := by
      rw [List.find?_cons_of_pos]
      simp [Msg.isSystem, Msg.content, react_mentions_convert_currency]
    rw [hfind]
    simp only [Msg.content, react_returnedCapture_none]


theorem toolPhase_eq_fold (execT : ToolExec) (hist : List Msg) (user : String) :
    toolPhase execT hist user =
      (detectRequiredTools hist user).foldl (toolStep execT)
        (Msg.system REACT_COT_PROMPT :: hist, [], [], []) := rfl

/-- The tool fold only appends to the message list. -/
theorem toolFold_msgs_append (execT : ToolExec) (tools : List ToolCall) :
    ∀ acc : List Msg × List ToolUse × List (String × JSValue) × List String,
    ∃ ex, (tools.foldl (toolStep execT) acc).1 = acc.1 ++ ex := by
  induction tools with
  | nil => exact fun acc => ⟨[], by simp⟩
  | cons tc t ih =>
    intro acc
    obtain ⟨ex2, hex2⟩ := ih (toolStep execT acc tc)
    rw [List.foldl_cons, hex2]
    unfold toolStep
    by_cases hc : travelToolNames.contains tc.name
    · simp only [hc, if_true]
      cases execT tc.name tc.args with
      | ok tr =>
        exact ⟨[Msg.system (execNotice tc.name tc.args tr)] ++ ex2, by simp⟩
      | error e =>
        exact ⟨[Msg.system (failNotice tc.name e)] ++ ex2, by simp⟩
    · simp only [hc, if_false]
      exact ⟨ex2, rfl⟩

/-- The messages after the tool phase are the system prompt followed by the
history and the pushed notices. -/
theorem toolPhase_msgs_shape (execT : ToolExec) (hist : List Msg) (user : String) :
    ∃ ex, (toolPhase execT hist user).1 = Msg.system REACT_COT_PROMPT :: (hist ++ ex) := by
  obtain ⟨ex, hex⟩ := toolFold_msgs_append execT (detectRequiredTools hist user)
    (Msg.system REACT_COT_PROMPT :: hist, [], [], [])
  exact ⟨ex, by rw [toolPhase_eq_fold, hex]; simp⟩

/-- Characterization of a run whose synthesis invocation succeeds: the three
validation blocks are inert (each one's `messages.find` hits the leading
system prompt, which has no `returned:` payload), so the draft is final, the
LLM is invoked exactly once, and the history gains exactly the two turns
(then truncated). -/
theorem processMessage_ok_char (execT : ToolExec) (llm : LLM) (hist : List Msg)
    (user : String) (ans : String)
    (h : llm (synthMessages execT hist user) = .ok ans) :
    processMessage execT llm hist user =
      { result := .ok ⟨(if ans = "" then fallbackContent else ans), identifyQueryType user,
          (if (detectRequiredTools hist user).isEmpty then 0 else 1) + 1,
          (toolPhase execT hist user).2.1⟩,
        chatHistoryAfter := updateHistory hist user (if ans = "" then fallbackContent else ans),
        llmCalls := 1,
        synthInput := synthMessages execT hist user,
        execCalls := (toolPhase execT hist user).2.2.1,
        toolsUsed := (toolPhase execT hist user).2.1,
        noticeNames := (toolPhase execT hist user).2.2.2,
        weatherFired := false, flightFired := false, currencyFired := false } := by
  obtain ⟨ex, hex⟩ := toolPhase_msgs_shape execT hist user
  have hmsgs2 : synthMessages execT hist user ++
      [Msg.system (strictBlock (toolPhase execT hist user).2.1)] =
      Msg.system REACT_COT_PROMPT ::
        ((hist ++ ex) ++ [Msg.human user] ++
          [Msg.system (strictBlock (toolPhase execT hist user).2.1)]) := by
    unfold synthMessages
    rw [hex]
    simp
  unfold processMessage
  simp only [h]
  cases hem : (toolPhase execT hist user).2.1.isEmpty with
  | true => simp
  | false =>
    rw [if_neg (by simp)]
    rw [hmsgs2, weatherValidation_inert]
    simp only [VStep.skip]
    rw [flightValidation_inert]
    simp only [VStep.skip]
    rw [currencyValidation_inert]
    simp only [VStep.skip]

/-- Characterization of a run whose synthesis invocation throws: the outermost
catch returns the apology and the stored history is untouched. -/
theorem processMessage_err_char (execT : ToolExec) (llm : LLM) (hist : List Msg)
    (user : String) (e : String)
    (h : llm (synthMessages execT hist user) = .error e) :
    processMessage execT llm hist user =
      { result := .err apologyError e, chatHistoryAfter := hist, llmCalls := 1,
        synthInput := synthMessages execT hist user,
        execCalls := (toolPhase execT hist user).2.2.1,
        toolsUsed := (toolPhase execT hist user).2.1,
        noticeNames := (toolPhase execT hist user).2.2.2,
        weatherFired := false, flightFired := false, currencyFired := false } := by
  unfold processMessage
  simp only [h]


theorem isAi_ai (s : String) : (Msg.ai s).isAi = true := rfl

theorem isAi_system (s : String) : (Msg.system s).isAi = false := rfl

theorem isAi_human (s : String) : (Msg.human s).isAi = false := rfl

theorem content_system (s : String) : (Msg.system s).content = s := rfl

theorem content_human (s : String) : (Msg.human s).content = s := rfl

theorem content_ai (s : String) : (Msg.ai s).content = s := rfl

theorem scan_skips_ai (g : String → Option String) (l : List Msg) :
    l.findSome? (fun m => if m.isAi then none else g m.content) =
      (l.filter (fun m => !m.isAi)).findSome? (fun m => g m.content) := by
  induction l with
  | nil => rfl
  | cons a t ih =>
    cases a with
    | ai s => simp [List.findSome?, List.filter, isAi_ai, ih]
    | system s =>
      simp only [List.findSome?, List.filter, isAi_system, Bool.not_false, cond_true,
        if_false, content_system]
      cases hg : g s <;> simp [hg, ih]
    | human s =>
      simp only [List.findSome?, List.filter, isAi_human, Bool.not_false, cond_true,
        if_false, content_human]
      cases hg : g s <;> simp [hg, ih]

theorem toolFold_used_append (execT : ToolExec) (tools : List ToolCall) :
    ∀ acc : List Msg × List ToolUse × List (String × JSValue) × List String,
    ∃ ex, (tools.foldl (toolStep execT) acc).2.1 = acc.2.1 ++ ex := by
  induction tools with
  | nil => exact fun acc => ⟨[], by simp⟩
  | cons tc t ih =>
    intro acc
    obtain ⟨ex2, hex2⟩ := ih (toolStep execT acc tc)
    rw [List.foldl_cons, hex2]
    unfold toolStep
    by_cases hc : travelToolNames.contains tc.name
    · simp only [hc, if_true]
      cases execT tc.name tc.args with
      | ok tr =>
        exact ⟨[⟨tc.name, tc.args, parseToolResult tr⟩] ++ ex2, by simp⟩
      | error e =>
        exact ⟨[⟨tc.name, tc.args, .obj [("success", .bool false), ("error", .str e)]⟩] ++ ex2,
          by simp⟩
    · simp only [hc, if_false]
      exact ⟨ex2, rfl⟩

theorem toolStep_names_in_catalog (execT : ToolExec)
    (acc : List Msg × List ToolUse × List (String × JSValue) × List String)
    (tc : ToolCall)
    (h1 : ∀ u ∈ acc.2.1, u.tool ∈ travelToolNames)
    (h2 : ∀ c ∈ acc.2.2.1, c.1 ∈ travelToolNames)
    (h3 : ∀ n ∈ acc.2.2.2, n ∈ travelToolNames) :
    (∀ u ∈ (toolStep execT acc tc).2.1, u.tool ∈ travelToolNames) ∧
    (∀ c ∈ (toolStep execT acc tc).2.2.1, c.1 ∈ travelToolNames) ∧
    (∀ n ∈ (toolStep execT acc tc).2.2.2, n ∈ travelToolNames) := by
  unfold toolStep
  by_cases hc : travelToolNames.contains tc.name
  · have hmem : tc.name ∈ travelToolNames := List.mem_of_elem_eq_true hc
    simp only [hc, if_true]
    cases execT tc.name tc.args with
    | ok tr =>
      refine ⟨?_, ?_, ?_⟩ <;> intro x hx <;> rcases List.mem_append.1 hx with hx | hx
      · exact h1 x hx
      · simp at hx; subst hx; exact hmem
      · exact h2 x hx
      · simp at hx; subst hx; exact hmem
      · exact h3 x hx
      · simp at hx; subst hx; exact hmem
    | error e =>
      refine ⟨?_, ?_, ?_⟩ <;> intro x hx <;> rcases List.mem_append.1 hx with hx | hx
      · exact h1 x hx
      · simp at hx; subst hx; exact hmem
      · exact h2 x hx
      · simp at hx; subst hx; exact hmem
      · exact h3 x hx
      · simp at hx; subst hx; exact hmem
  · simp only [hc, if_false]
    exact ⟨h1, h2, h3⟩

theorem toolFold_names_in_catalog (execT : ToolExec) (tools : List ToolCall) :
    ∀ acc : List Msg × List ToolUse × List (String × JSValue) × List String,
    (∀ u ∈ acc.2.1, u.tool ∈ travelToolNames) →
    (∀ c ∈ acc.2.2.1, c.1 ∈ travelToolNames) →
    (∀ n ∈ acc.2.2.2, n ∈ travelToolNames) →
    (∀ u ∈ (tools.foldl (toolStep execT) acc).2.1, u.tool ∈ travelToolNames) ∧
    (∀ c ∈ (tools.foldl (toolStep execT) acc).2.2.1, c.1 ∈ travelToolNames) ∧
    (∀ n ∈ (tools.foldl (toolStep execT) acc).2.2.2, n ∈ travelToolNames) := by
  induction tools with
  | nil => exact fun acc h1 h2 h3 => ⟨h1, h2, h3⟩
  | cons tc t ih =>
    intro acc h1 h2 h3
    rw [List.foldl_cons]
    obtain ⟨g1, g2, g3⟩ := toolStep_names_in_catalog execT acc tc h1 h2 h3
    exact ih _ g1 g2 g3

theorem toolFold_mem_failure (execT : ToolExec) (tools : List ToolCall) :
    ∀ acc (tc : ToolCall) (e : String), tc ∈ tools →
      travelToolNames.contains tc.name = true →
      execT tc.name tc.args = .error e →
      Msg.system (failNotice tc.name e) ∈ (tools.foldl (toolStep execT) acc).1 ∧
      (⟨tc.name, tc.args, .obj [("success", .bool false), ("error", .str e)]⟩ : ToolUse) ∈
        (tools.foldl (toolStep execT) acc).2.1 := by
  induction tools with
  | nil => intro _ _ _ h; cases h
  | cons a t ih =>
    intro acc tc e hmem hc hex
    rw [List.foldl_cons]
    rcases List.mem_cons.1 hmem with heq | hmem2
    · subst heq
      obtain ⟨ex1, hex1⟩ := toolFold_msgs_append execT t (toolStep execT acc tc)
      obtain ⟨ex2, hex2⟩ := toolFold_used_append execT t (toolStep execT acc tc)
      rw [hex1, hex2]
      unfold toolStep
      simp only [hc, if_true, hex]
      constructor
      · exact List.mem_append_left _ (List.mem_append_right _ (by simp))
      · exact List.mem_append_left _ (List.mem_append_right _ (by simp))
    · exact ih _ tc e hmem2 hc hex

theorem updateHistory_length_le (h : List Msg) (u a : String) :
    (updateHistory h u a).length ≤ 20 := by
  unfold updateHistory histTruncate takeLastN
  split_ifs with hl
  · simp only [List.length_drop]
    omega
  · omega

theorem updateHistory_suffix (h : List Msg) (u a : String) :
    updateHistory h u a <:+ h ++ [Msg.human u, Msg.ai a] := by
  unfold updateHistory histTruncate takeLastN
  split_ifs
  · exact List.drop_suffix _ _
  · exact List.suffix_refl _

theorem takeLastN_append_two (h : List Msg) (x y : Msg) :
    takeLastN 2 (h ++ [x, y]) = [x, y] := by
  unfold takeLastN
  have hl : (h ++ [x, y]).length - 2 = h.length := by simp
  rw [hl]
  exact List.drop_left h [x, y]

theorem updateHistory_last_two (h : List Msg) (u a : String) :
    takeLastN 2 (updateHistory h u a) = [Msg.human u, Msg.ai a] := by
  unfold updateHistory histTruncate
  split_ifs with hl
  · unfold takeLastN
    rw [List.drop_drop, List.length_drop]
    have hlen : (h ++ [Msg.human u, Msg.ai a]).length = h.length + 2 := by simp
    have harith : (h ++ [Msg.human u, Msg.ai a]).length - 20 +
        ((h ++ [Msg.human u, Msg.ai a]).length -
          ((h ++ [Msg.human u, Msg.ai a]).length - 20) - 2) = h.length := by
      rw [hlen] at hl ⊢
      omega
    rw [harith]
    exact List.drop_left h [Msg.human u, Msg.ai a]
  · exact takeLastN_append_two h _ _

/-! ## The claims -/

/-- C10: `identifyQueryType` lower-cases the message, scores each non-general
category with weight 2 for keywords longer than 10 characters and 1 otherwise,
returns the highest-scoring category with ties broken by the fixed enumeration
order, and falls back to `general` when the maximum score is below 1 — i.e. it
coincides with the spec-side classifier. -/
theorem identifyQueryType_matches_spec (m : String) :
    identifyQueryType m = identifyQueryTypeSpec m := by
  unfold identifyQueryType identifyQueryTypeSpec queryTemplateKeywords
  simp only [List.map]
  generalize keywordScore (jsToLower m) destinationKeywords = s1
  generalize keywordScore (jsToLower m) packingKeywords = s2
  generalize keywordScore (jsToLower m) attractionsKeywords = s3
  simp only [List.foldl]
  split_ifs <;> first | rfl | omega

/-- C9 (amended): each history-aware extractor walks exactly the non-Assistant
messages among the last K stored turns (K = 6 for the location extractor, 10
for the two flight extractors) in stored order — oldest-first inside the
window, not newest-first — and never returns a value from an Assistant turn;
in particular a Human turn about Lisbon followed by an Assistant turn about
Paris resolves to Lisbon. -/
theorem context_extractors_scan_human_turns_in_stored_order :
    (∀ hist : List Msg, extractLocationFromContext hist =
      ((takeLastN 6 hist).filter (fun m => !m.isAi)).findSome?
        (fun m => matchDestinationInContent m.content)) ∧
    (∀ hist : List Msg, extractFlightOriginFromContext hist =
      ((takeLastN 10 hist).filter (fun m => !m.isAi)).findSome?
        (fun m => matchFlightOriginInContent m.content)) ∧
    (∀ hist : List Msg, extractFlightDestinationFromContext hist =
      ((takeLastN 10 hist).filter (fun m => !m.isAi)).findSome?
        (fun m => matchFlightDestInContent m.content)) ∧
    extractLocationFromContext
      [Msg.human "I am flying to Lisbon", Msg.ai "Have fun in Paris"] = some "Lisbon" :=
  ⟨fun hist => scan_skips_ai matchDestinationInContent (takeLastN 6 hist),
   fun hist => scan_skips_ai matchFlightOriginInContent (takeLastN 10 hist),
   fun hist => scan_skips_ai matchFlightDestInContent (takeLastN 10 hist),
   by decide⟩

/-- C9 (counterexample): the extractors do not scan newest-first: with two
matching Human turns in the window, the source function returns the location
of the oldest one, while the newest-first scan the claim describes returns the
newest. -/
theorem context_scan_not_newest_first :
    extractLocationFromContext
      [Msg.human "I am flying to Rome", Msg.human "I am flying to Paris"] = some "Rome" ∧
    extractLocationFromContextNewestFirst
      [Msg.human "I am flying to Rome", Msg.human "I am flying to Paris"] = some "Paris" ∧
    "Rome" ≠ "Paris" :=
  ⟨by decide, by decide, by decide⟩

/-- C3 (amended): no run of `processMessage` ever performs a corrective
re-invocation: each validation block's `messages.find` locates the leading
system prompt (whose tools section mentions every tool name) instead of a tool
notice, finds no `returned:` payload there, and falls through, so the LLM is
invoked exactly once per run and no correction is ever accumulated. -/
theorem processMessage_invokes_llm_exactly_once
    (execT : ToolExec) (llm : LLM) (hist : List Msg) (user : String) :
    (processMessage execT llm hist user).llmCalls = 1 ∧
    (processMessage execT llm hist user).weatherFired = false ∧
    (processMessage execT llm hist user).flightFired = false ∧
    (processMessage execT llm hist user).currencyFired = false := by
  cases h : llm (synthMessages execT hist user) with
  | error e =>
    rw [processMessage_err_char execT llm hist user e h]
    exact ⟨rfl, rfl, rfl, rfl⟩
  | ok ans =>
    rw [processMessage_ok_char execT llm hist user ans h]
    exact ⟨rfl, rfl, rfl, rfl⟩

/-- C3 (counterexample): a run in which the spec-side violation conditions of
two domains hold simultaneously — the weather tool succeeded for Berlin and
the draft never mentions Berlin, and the draft matches a flight hallucination
signature — performs no corrective re-invocation at all (the LLM is invoked
once and no block fires), not the single accumulated one the claim asserts. -/
theorem multidomain_violations_trigger_no_retry :
    specWeatherViolation berlinWeatherJson "Fly for $230 to Rome." = true ∧
    specFlightViolation "Fly for $230 to Rome." = true ∧
    (processMessage fixtureExec llmPriceDraft []
        "weather in Berlin for my flight from Paris to Rome").toolsUsed.map
      (fun t => t.tool) = ["get_weather", "search_flights"] ∧
    resultContent (processMessage fixtureExec llmPriceDraft []
        "weather in Berlin for my flight from Paris to Rome").result =
      "Fly for $230 to Rome." ∧
    (processMessage fixtureExec llmPriceDraft []
        "weather in Berlin for my flight from Paris to Rome").llmCalls = 1 ∧
    (processMessage fixtureExec llmPriceDraft []
        "weather in Berlin for my flight from Paris to Rome").weatherFired = false ∧
    (processMessage fixtureExec llmPriceDraft []
        "weather in Berlin for my flight from Paris to Rome").flightFired = false :=
  ⟨by decide, by decide, by decide, by rfl, by decide, by decide, by decide⟩

/-- C1 (code bug): a run in which `search_flights` executed successfully and
the draft contains the price signature `$230` raises no flight-domain
violation and performs no corrective re-invocation — the validator finds the
leading system prompt (which lists `search_flights`) instead of the tool
notice and bails out for lack of a `returned:` payload — so the hallucinated
draft is returned to the caller unchanged. -/
theorem flight_validation_never_fires :
    (processMessage fixtureExec llmPriceDraft [] "flight from Paris to Rome").toolsUsed.map
      (fun t => t.tool) = ["search_flights"] ∧
    fixtureExec "search_flights" flightParisRomeArgs = .ok parisRomeFlightJson ∧
    hasFlightHallucination "Fly for $230 to Rome." = true ∧
    resultContent (processMessage fixtureExec llmPriceDraft []
        "flight from Paris to Rome").result = "Fly for $230 to Rome." ∧
    (processMessage fixtureExec llmPriceDraft [] "flight from Paris to Rome").llmCalls = 1 ∧
    (processMessage fixtureExec llmPriceDraft [] "flight from Paris to Rome").flightFired =
      false :=
  ⟨by decide, by rfl, by decide, by rfl, by decide, by decide⟩

/-- C2 (code bug): a run in which `get_weather` returned a successful payload
resolving Berlin while the draft never mentions Berlin — the spec-side weather
violation condition — detects no violation and performs no corrective
re-invocation: the validator reads the leading system prompt (which lists
`get_weather`) instead of the tool notice, and even at the notice the payload
is a doubly-serialized JSON string whose parse is a string with no `success`
property. -/
theorem weather_validation_never_fires :
    (processMessage fixtureExec llmSunny [] "weather in Berlin").toolsUsed.map
      (fun t => t.tool) = ["get_weather"] ∧
    fixtureExec "get_weather" weatherBerlinArgs = .ok berlinWeatherJson ∧
    specWeatherViolation berlinWeatherJson "It will be sunny." = true ∧
    resultContent (processMessage fixtureExec llmSunny [] "weather in Berlin").result =
      "It will be sunny." ∧
    (processMessage fixtureExec llmSunny [] "weather in Berlin").llmCalls = 1 ∧
    (processMessage fixtureExec llmSunny [] "weather in Berlin").weatherFired = false :=
  ⟨by decide, by rfl, by decide, by rfl, by decide, by decide⟩

/-- C4 (code bug): required-tool detection emits the name `convert_currency`,
which is not registered in the `travelTools` catalog, so the by-name lookup
fails for it and the call is dropped: at the failing input no executor is ever
invoked. -/
theorem detector_emits_unregistered_convert_currency :
    (detectRequiredTools [] "exchange 100 usd").map (fun t => t.name) =
      ["convert_currency"] ∧
    "convert_currency" ∉ travelToolNames ∧
    (processMessage fixtureExec llmPlain [] "exchange 100 usd").execCalls = [] ∧
    (processMessage fixtureExec llmPlain [] "exchange 100 usd").toolsUsed = [] :=
  ⟨by decide, by decide, by rfl, by rfl⟩

/-- C5: a scheduled call whose name is not in the catalog — in particular
`convert_currency`, emitted by the detector while the catalog registers
`get_currency_exchange` — is silently skipped: in every run each executed
tool, each `toolsUsed` record and each pushed notice carries a catalog name,
and the currency validation (which looks for `convert_currency` among
`toolsUsed`) never fires; at a concrete currency query nothing at all is
executed, recorded or narrated. -/
theorem unregistered_tool_calls_silently_skipped :
    "convert_currency" ∉ travelToolNames ∧
    "get_currency_exchange" ∈ travelToolNames ∧
    (detectRequiredTools [] "convert 50 euros to dollars").map (fun t => t.name) =
      ["convert_currency"] ∧
    (∀ (execT : ToolExec) (llm : LLM) (hist : List Msg) (user : String),
      (∀ u ∈ (processMessage execT llm hist user).toolsUsed, u.tool ∈ travelToolNames) ∧
      (∀ c ∈ (processMessage execT llm hist user).execCalls, c.1 ∈ travelToolNames) ∧
      (∀ n ∈ (processMessage execT llm hist user).noticeNames, n ∈ travelToolNames) ∧
      (processMessage execT llm hist user).currencyFired = false) ∧
    ((processMessage fixtureExec llmPlain [] "convert 50 euros to dollars").execCalls = [] ∧
     (processMessage fixtureExec llmPlain [] "convert 50 euros to dollars").toolsUsed = [] ∧
     (processMessage fixtureExec llmPlain [] "convert 50 euros to dollars").noticeNames = [] ∧
     (processMessage fixtureExec llmPlain [] "convert 50 euros to dollars").llmCalls = 1) := by
  refine ⟨by decide, by decide, by decide, ?_, by rfl, by rfl, by rfl, by decide⟩
  intro execT llm hist user
  have hfold := toolFold_names_in_catalog execT (detectRequiredTools hist user)
    (Msg.system REACT_COT_PROMPT :: hist, [], [], [])
    (by intro u hu; cases hu) (by intro c hc; cases hc) (by intro n hn; cases hn)
  have hfields :
      (processMessage execT llm hist user).toolsUsed = (toolPhase execT hist user).2.1 ∧
      (processMessage execT llm hist user).execCalls = (toolPhase execT hist user).2.2.1 ∧
      (processMessage execT llm hist user).noticeNames = (toolPhase execT hist user).2.2.2 ∧
      (processMessage execT llm hist user).currencyFired = false := by
    cases h : llm (synthMessages execT hist user) with
    | error e =>
      rw [processMessage_err_char execT llm hist user e h]
      exact ⟨rfl, rfl, rfl, rfl⟩
    | ok ans =>
      rw [processMessage_ok_char execT llm hist user ans h]
      exact ⟨rfl, rfl, rfl, rfl⟩
  rw [hfields.1, hfields.2.1, hfields.2.2.1, toolPhase_eq_fold]
  exact ⟨hfold.1, hfold.2.1, hfold.2.2, hfields.2.2.2⟩

/-- C6: when an LLM invocation throws, `processMessage` returns the failure
shape with the fixed apology as `error` and the thrown message as `details`,
and the stored history is exactly what it was before the call — the Human and
Assistant turns of the failed exchange are not appended. -/
theorem processMessage_error_path_preserves_history
    (execT : ToolExec) (llm : LLM) (hist : List Msg) (user e : String)
    (h : llm (synthMessages execT hist user) = .error e) :
    (processMessage execT llm hist user).result = .err apologyError e ∧
    (processMessage execT llm hist user).chatHistoryAfter = hist := by
  rw [processMessage_err_char execT llm hist user e h]
  exact ⟨rfl, rfl⟩

/-- Witness for C6 at a concrete input: a throwing LLM oracle, a two-turn
stored history and the message `"hello"`. -/
theorem processMessage_error_path_preserves_history_witness :
    (processMessage fixtureExec llmThrowing [Msg.human "hi", Msg.ai "hello there"]
        "hello").result = .err apologyError "boom" ∧
    (processMessage fixtureExec llmThrowing [Msg.human "hi", Msg.ai "hello there"]
        "hello").chatHistoryAfter = [Msg.human "hi", Msg.ai "hello there"] :=
  processMessage_error_path_preserves_history fixtureExec llmThrowing
    [Msg.human "hi", Msg.ai "hello there"] "hello" "boom" rfl

/-- C7: a throwing tool executor never aborts the run: the failure notice
`Tool <name> failed with error: <message>` is part of the synthesis context,
the invocation is recorded in `toolsUsed` with `success: false`, the synthesis
LLM call still takes place (exactly one invocation) and a final answer is
returned to the caller. -/
theorem tool_failure_never_aborts_run
    (execT : ToolExec) (llm : LLM) (hist : List Msg) (user : String)
    (tc : ToolCall) (e ans : String)
    (hdet : tc ∈ detectRequiredTools hist user)
    (hcat : travelToolNames.contains tc.name = true)
    (hexec : execT tc.name tc.args = .error e)
    (hllm : llm (synthMessages execT hist user) = .ok ans) :
    Msg.system (failNotice tc.name e) ∈ (processMessage execT llm hist user).synthInput ∧
    (⟨tc.name, tc.args, .obj [("success", .bool false), ("error", .str e)]⟩ : ToolUse) ∈
      (processMessage execT llm hist user).toolsUsed ∧
    (processMessage execT llm hist user).llmCalls = 1 ∧
    (processMessage execT llm hist user).result =
      .ok ⟨(if ans = "" then fallbackContent else ans), identifyQueryType user,
        (if (detectRequiredTools hist user).isEmpty then 0 else 1) + 1,
        (toolPhase execT hist user).2.1⟩ := by
  have hm := toolFold_mem_failure execT (detectRequiredTools hist user)
    (Msg.system REACT_COT_PROMPT :: hist, [], [], []) tc e hdet hcat hexec
  rw [processMessage_ok_char execT llm hist user ans hllm]
  refine ⟨?_, ?_, rfl, rfl⟩
  · show Msg.system (failNotice tc.name e) ∈ synthMessages execT hist user
    unfold synthMessages
    rw [toolPhase_eq_fold]
    exact List.mem_append_left _ hm.1
  · show _ ∈ (toolPhase execT hist user).2.1
    rw [toolPhase_eq_fold]
    exact hm.2

/-- Witness for C7 at a concrete input: the weather tool scheduled by
`"weather in Paris"` with an executor that throws `network down`. -/
theorem tool_failure_never_aborts_run_witness :
    Msg.system (failNotice "get_weather" "network down") ∈
      (processMessage throwingExec llmPlain [] "weather in Paris").synthInput ∧
    (⟨"get_weather", weatherParisArgs, .obj [("success", .bool false),
        ("error", .str "network down")]⟩ : ToolUse) ∈
      (processMessage throwingExec llmPlain [] "weather in Paris").toolsUsed ∧
    (processMessage throwingExec llmPlain [] "weather in Paris").llmCalls = 1 ∧
    (processMessage throwingExec llmPlain [] "weather in Paris").result =
      .ok ⟨"Sorry, no data.", identifyQueryType "weather in Paris",
        (if (detectRequiredTools [] "weather in Paris").isEmpty then 0 else 1) + 1,
        (toolPhase throwingExec [] "weather in Paris").2.1⟩ := by
  have h := tool_failure_never_aborts_run throwingExec llmPlain [] "weather in Paris"
    ⟨"get_weather", weatherParisArgs⟩ "network down" "Sorry, no data."
    (by rw [show detectRequiredTools [] "weather in Paris" =
        [⟨"get_weather", weatherParisArgs⟩] from rfl]; exact List.mem_singleton.2 rfl)
    (by decide) rfl rfl
  simpa using h

/-- C8: after every successful `processMessage` call the stored history is the
append of the two new turns truncated to the 20-entry window: it holds at most
20 entries, is a suffix of the untruncated list (entries are only dropped from
the front), always retains the most recent Human/Assistant exchange as its
last two entries, and appending 25 turns one by one to a fresh memory under
this truncation leaves exactly turns 6 through 25. -/
theorem history_window_bounded_after_success
    (execT : ToolExec) (llm : LLM) (hist : List Msg) (user ans : String)
    (h : llm (synthMessages execT hist user) = .ok ans) :
    (processMessage execT llm hist user).chatHistoryAfter =
      updateHistory hist user (if ans = "" then fallbackContent else ans) ∧
    (processMessage execT llm hist user).chatHistoryAfter.length ≤ 20 ∧
    (processMessage execT llm hist user).chatHistoryAfter <:+
      (hist ++ [Msg.human user, Msg.ai (if ans = "" then fallbackContent else ans)]) ∧
    takeLastN 2 (processMessage execT llm hist user).chatHistoryAfter =
      [Msg.human user, Msg.ai (if ans = "" then fallbackContent else ans)] ∧
    (List.range 25).foldl
        (fun acc i => histTruncate (acc ++ [Msg.human (toString (i + 1))])) [] =
      (List.range 20).map (fun i => Msg.human (toString (i + 6))) := by
  rw [processMessage_ok_char execT llm hist user ans h]
  exact ⟨rfl, updateHistory_length_le _ _ _, updateHistory_suffix _ _ _,
    updateHistory_last_two _ _ _, by decide⟩

/-- Witness for C8 at a concrete input: a 20-turn stored history and a
successful synthesis, so the append crosses the window and drops the two
oldest turns. -/
theorem history_window_bounded_after_success_witness :
    (processMessage fixtureExec llmPlain
        ((List.range 10).foldl (fun acc i =>
          acc ++ [Msg.human (toString i), Msg.ai (toString i)]) []) "hello").chatHistoryAfter =
      updateHistory ((List.range 10).foldl (fun acc i =>
          acc ++ [Msg.human (toString i), Msg.ai (toString i)]) []) "hello"
        (if "Sorry, no data." = "" then fallbackContent else "Sorry, no data.") ∧
    (processMessage fixtureExec llmPlain
        ((List.range 10).foldl (fun acc i =>
          acc ++ [Msg.human (toString i), Msg.ai (toString i)]) []) "hello").chatHistoryAfter.length ≤ 20 ∧
    (processMessage fixtureExec llmPlain
        ((List.range 10).foldl (fun acc i =>
          acc ++ [Msg.human (toString i), Msg.ai (toString i)]) []) "hello").chatHistoryAfter <:+
      (((List.range 10).foldl (fun acc i =>
          acc ++ [Msg.human (toString i), Msg.ai (toString i)]) []) ++
        [Msg.human "hello", Msg.ai (if "Sorry, no data." = "" then fallbackContent
          else "Sorry, no data.")]) ∧
    takeLastN 2 (processMessage fixtureExec llmPlain
        ((List.range 10).foldl (fun acc i =>
          acc ++ [Msg.human (toString i), Msg.ai (toString i)]) []) "hello").chatHistoryAfter =
      [Msg.human "hello", Msg.ai (if "Sorry, no data." = "" then fallbackContent
        else "Sorry, no data.")] ∧
    (List.range 25).foldl
        (fun acc i => histTruncate (acc ++ [Msg.human (toString (i + 1))])) [] =
      (List.range 20).map (fun i => Msg.human (toString (i + 6))) :=
  history_window_bounded_after_success fixtureExec llmPlain
    ((List.range 10).foldl (fun acc i =>
      acc ++ [Msg.human (toString i), Msg.ai (toString i)]) []) "hello" "Sorry, no data." rfl

end TravelAssistant

